import Mathlib

/-!
Shallow embedding of the DeployFunction repository (Azure Function that
records deployment events into five Azure Table Storage tables).

Sources embedded:
- src/functions/shared/tableHelper.js : the record-store adapter
  (createCustomer, createEnvironment, createDeploymentRecord,
  createResourceRecord, createEndpoint), which builds entities as
  object literals of the form
  { partitionKey, rowKey, timestamp, status, ...callerBag }
  and wraps every store failure as a new Error with message
  "<Kind> operation failed: <cause>".
- src/functions/RecordDeployment.js (revision without per-call probes,
  mirrored in src/unnamed/part_002) : the HTTP handler that validates
  the payload, then writes Deployment, then optional Customer,
  optional Environment, then each resource and each endpoint in order.
- src/unnamed/part_000 : the retryOperation helper (3 attempts,
  exponential backoff 1000ms doubling, retrying only errors whose
  name is SocketException or TimeoutError).

Modelling conventions:
- JS objects are association lists; property access returns the value
  of the LAST binding of a key (object-literal / spread semantics:
  later keys override earlier ones).  A value is `Option String`;
  `none` models JS undefined and string interpolation of undefined
  renders as "undefined".
- The millisecond clock `Date.now()` / `new Date().toISOString()` is a
  function `clock : Nat -> Nat` read at successive ticks; each clock
  read consumes one tick.
- Store-level outcomes of successive store write calls are injected via
  `outcomes : Nat -> Option JsError` indexed by a call counter: `none`
  means the store call succeeds, `some err` means the backing store
  raised `err` during that call.  Key conflicts and all other
  store-side failures are represented through this injection; on a
  failed call nothing is persisted.
-/

namespace DeployFn

/-- A JS attribute bag: insertion-ordered key/value list, later entries
override earlier ones (object-literal spread semantics).  A value of
`none` models an explicitly `undefined` property. -/
abbrev Obj := List (String × Option String)

/-- JS property access `o[k]`: value of the last binding of `k`,
`none` when absent (or explicitly undefined). -/
def Obj.idx (o : Obj) (k : String) : Option String :=
  o.foldl (fun a p => if p.1 = k then p.2 else a) none

/-- Whether the bag has an entry (even an undefined one) for key `k`. -/
def hasKey (o : Obj) (k : String) : Bool :=
  o.any (fun p => p.1 = k)

/-- JS template interpolation of a possibly-undefined value:
`undefined` renders as the string "undefined". -/
def jsStr (v : Option String) : String := v.getD "undefined"

/-- JS falsiness of a possibly-undefined string: `undefined` and the
empty string are falsy. -/
def falsyOpt : Option String → Bool
  | none => true
  | some s => s == ""

/-- JS `v || dflt` on a possibly-undefined string. -/
def jsOr (v : Option String) (dflt : String) : String :=
  match v with
  | none => dflt
  | some s => if s == "" then dflt else s

/-- Rendering of the clock instant by `new Date().toISOString()`,
modelled as an abstract timestamp string of the millisecond value. -/
def isoStr (n : Nat) : String := "iso:" ++ Nat.repr n

/-- A stored row: the entity object as handed to the table client. -/
abbrev Entity := Obj

/-- The (partition key, row key) pair under which the store files an
entity: the entity object's own `partitionKey` / `rowKey` properties. -/
def entityKey (e : Entity) : Option String × Option String :=
  (e.idx "partitionKey", e.idx "rowKey")

/-- One logical table: rows in insertion order. -/
abbrev Table := List Entity

/-- `upsertEntity(entity, "Replace")`: replace the row with the same
(partition, row) key in place, or append a new row. -/
def upsertReplace : Table → Entity → Table
  | [], e => [e]
  | r :: rest, e =>
    if entityKey r = entityKey e then e :: rest else r :: upsertReplace rest e

/-- `createEntity(entity)`: persist a new row (store-level failures,
including key conflicts, are injected through the call outcome). -/
def createAppend (t : Table) (e : Entity) : Table := t ++ [e]

/-- Number of rows filed under a given (partition, row) key. -/
def countKey (t : Table) (k : Option String × Option String) : Nat :=
  (t.filter (fun e => entityKey e = k)).length

/-- The first row filed under a given (partition, row) key. -/
def lookupKey (t : Table) (k : Option String × Option String) : Option Entity :=
  t.find? (fun e => entityKey e = k)

/-- A JS error value: its `name` and `message`. -/
structure JsError where
  name : String
  message : String
deriving DecidableEq

/-- The five tables owned by the adapter (Customers,
CustomerEnvironments, DeploymentHistory, DeployedResources,
IntegrationEndpoints). -/
structure Store where
  customers : Table
  environments : Table
  deployments : Table
  resources : Table
  endpoints : Table
deriving DecidableEq

def emptyStore : Store := ⟨[], [], [], [], []⟩

/-- One record write performed against the store. -/
inductive Write where
  | dep (e : Entity)
  | cust (e : Entity)
  | env (e : Entity)
  | res (e : Entity)
  | endp (e : Entity)
deriving DecidableEq

/-- Entity-kind tag of a write. -/
inductive WKind where
  | dep | cust | env | res | endp
deriving DecidableEq

def writeKind : Write → WKind
  | .dep _ => .dep
  | .cust _ => .cust
  | .env _ => .env
  | .res _ => .res
  | .endp _ => .endp

/-- The external world a request runs against: the millisecond clock at
each successive clock read, and the store outcome of each successive
store write call. -/
structure World where
  clock : Nat → Nat
  outcomes : Nat → Option JsError

/-- All store calls succeed. -/
def noOutcome : Nat → Option JsError := fun _ => none

/-- Running state of one request: next clock tick, next store-call
index, current store contents, and the writes performed so far. -/
structure RS where
  tick : Nat
  call : Nat
  store : Store
  trace : List Write
deriving DecidableEq

/-! Entity builders, one per adapter operation, mirroring the object
literals of tableHelper.js field by field (fixed fields first, then the
caller bag spread last, so caller fields override). -/

/-- tableHelper.createCustomer entity:
`{partitionKey: customerId, rowKey: customerId, timestamp, ...data}`. -/
def customerEntity (iso : String) (d : Obj) : Entity :=
  ("partitionKey", d.idx "customerId") ::
  ("rowKey", d.idx "customerId") ::
  ("timestamp", some iso) :: d

/-- tableHelper.createEnvironment entity:
`{partitionKey: customerId, rowKey: environmentId, timestamp, ...data}`. -/
def environmentEntity (iso : String) (d : Obj) : Entity :=
  ("partitionKey", d.idx "customerId") ::
  ("rowKey", d.idx "environmentId") ::
  ("timestamp", some iso) :: d

/-- tableHelper.createDeploymentRecord entity: `{partitionKey:
customerId, rowKey: Date.now() + "_" + environmentId, timestamp,
status: "InProgress", ...data}`. -/
def deploymentEntity (nowMs : Nat) (iso : String) (d : Obj) : Entity :=
  ("partitionKey", d.idx "customerId") ::
  ("rowKey", some (Nat.repr nowMs ++ "_" ++ jsStr (d.idx "environmentId"))) ::
  ("timestamp", some iso) ::
  ("status", some "InProgress") :: d

/-- tableHelper.createResourceRecord entity: `{partitionKey:
deploymentId, rowKey: resourceType + "_" + Date.now(), timestamp,
status: "Deployed", ...data}`. -/
def resourceEntity (nowMs : Nat) (iso : String) (d : Obj) : Entity :=
  ("partitionKey", d.idx "deploymentId") ::
  ("rowKey", some (jsStr (d.idx "resourceType") ++ "_" ++ Nat.repr nowMs)) ::
  ("timestamp", some iso) ::
  ("status", some "Deployed") :: d

/-- tableHelper.createEndpoint entity: `{partitionKey: customerId,
rowKey: serviceType + "_" + Date.now(), timestamp, status: "Active",
...data}`. -/
def endpointEntity (nowMs : Nat) (iso : String) (d : Obj) : Entity :=
  ("partitionKey", d.idx "customerId") ::
  ("rowKey", some (jsStr (d.idx "serviceType") ++ "_" ++ Nat.repr nowMs)) ::
  ("timestamp", some iso) ::
  ("status", some "Active") :: d

/-! The five adapter operations of tableHelper.js.  Each builds its
entity (consuming clock ticks for `Date.now()` / `toISOString()` reads
in source order), then issues one store call; a store failure is
wrapped as `new Error("<Kind> operation failed: " + cause.message)` and
re-raised, and nothing is persisted by the failed call. -/

def createCustomer (w : World) (rs : RS) (d : Obj) :
    Except (JsError × RS) (RS × Bool) :=
  let e := customerEntity (isoStr (w.clock rs.tick)) d
  match w.outcomes rs.call with
  | some err =>
    .error (⟨"Error", "Customer operation failed: " ++ err.message⟩,
      ⟨rs.tick + 1, rs.call + 1, rs.store, rs.trace⟩)
  | none =>
    .ok (⟨rs.tick + 1, rs.call + 1,
      { rs.store with customers := upsertReplace rs.store.customers e },
      rs.trace ++ [Write.cust e]⟩, true)

def createEnvironment (w : World) (rs : RS) (d : Obj) :
    Except (JsError × RS) (RS × Bool) :=
  let e := environmentEntity (isoStr (w.clock rs.tick)) d
  match w.outcomes rs.call with
  | some err =>
    .error (⟨"Error", "Environment operation failed: " ++ err.message⟩,
      ⟨rs.tick + 1, rs.call + 1, rs.store, rs.trace⟩)
  | none =>
    .ok (⟨rs.tick + 1, rs.call + 1,
      { rs.store with environments := upsertReplace rs.store.environments e },
      rs.trace ++ [Write.env e]⟩, true)

/-- Returns `entity.rowKey` after the spread, exactly as the source
does (`return entity.rowKey;`) — not the derived string. -/
def createDeploymentRecord (w : World) (rs : RS) (d : Obj) :
    Except (JsError × RS) (RS × Option String) :=
  let e := deploymentEntity (w.clock rs.tick) (isoStr (w.clock (rs.tick + 1))) d
  match w.outcomes rs.call with
  | some err =>
    .error (⟨"Error", "Deployment operation failed: " ++ err.message⟩,
      ⟨rs.tick + 2, rs.call + 1, rs.store, rs.trace⟩)
  | none =>
    .ok (⟨rs.tick + 2, rs.call + 1,
      { rs.store with deployments := createAppend rs.store.deployments e },
      rs.trace ++ [Write.dep e]⟩, e.idx "rowKey")

def createResourceRecord (w : World) (rs : RS) (d : Obj) :
    Except (JsError × RS) (RS × Bool) :=
  let e := resourceEntity (w.clock rs.tick) (isoStr (w.clock (rs.tick + 1))) d
  match w.outcomes rs.call with
  | some err =>
    .error (⟨"Error", "Resource operation failed: " ++ err.message⟩,
      ⟨rs.tick + 2, rs.call + 1, rs.store, rs.trace⟩)
  | none =>
    .ok (⟨rs.tick + 2, rs.call + 1,
      { rs.store with resources := createAppend rs.store.resources e },
      rs.trace ++ [Write.res e]⟩, true)

def createEndpoint (w : World) (rs : RS) (d : Obj) :
    Except (JsError × RS) (RS × Bool) :=
  let e := endpointEntity (w.clock rs.tick) (isoStr (w.clock (rs.tick + 1))) d
  match w.outcomes rs.call with
  | some err =>
    .error (⟨"Error", "Endpoint operation failed: " ++ err.message⟩,
      ⟨rs.tick + 2, rs.call + 1, rs.store, rs.trace⟩)
  | none =>
    .ok (⟨rs.tick + 2, rs.call + 1,
      { rs.store with endpoints := createAppend rs.store.endpoints e },
      rs.trace ++ [Write.endp e]⟩, true)

/-! The retryOperation helper of src/unnamed/part_000:

    for (let i = 0; i < maxRetries; i++) {
      try { return await operation(); }
      catch (error) {
        if (i === maxRetries - 1) throw error;
        if (error.name === "SocketException" || error.name === "TimeoutError") {
          await sleep(delay * Math.pow(2, i)); continue;
        }
        throw error;
      }
    }

The operation is impure; its k-th invocation is modelled by `op k`.
If the loop exhausts without returning, JS returns undefined: result
`.ok none`.  The output records the value, the number of attempts
actually made, and the list of backoff sleeps performed. -/

/-- Whether retryOperation classifies an error name as transient. -/
def transientName (n : String) : Bool :=
  n == "SocketException" || n == "TimeoutError"

structure RetryOut (α : Type) where
  result : Except JsError (Option α)
  attempts : Nat
  sleeps : List Nat

/-- Loop body of retryOperation; `remaining = maxRetries - i` and
`used` is the number of attempts made so far (equal to the loop
index `i`, since every iteration makes exactly one attempt). -/
def retryGo (op : Nat → Except JsError α) (maxRetries delay : Nat) :
    Nat → Nat → List Nat → RetryOut α
  | 0, used, sleeps => ⟨.ok none, used, sleeps⟩
  | remaining + 1, used, sleeps =>
    match op used with
    | .ok a => ⟨.ok (some a), used + 1, sleeps⟩
    | .error e =>
      if used = maxRetries - 1 then ⟨.error e, used + 1, sleeps⟩
      else if transientName e.name then
        retryGo op maxRetries delay remaining (used + 1)
          (sleeps ++ [delay * 2 ^ used])
      else ⟨.error e, used + 1, sleeps⟩

def retryOperation (op : Nat → Except JsError α) (maxRetries delay : Nat) :
    RetryOut α :=
  retryGo op maxRetries delay maxRetries 0 []

/-! The HTTP handler (RecordDeployment.js, canonical revision using the
shared tableHelper adapter, as in src/unnamed/part_002). -/

/-- The parsed JSON request body.  Absent fields are `none`; the typed
fields mirror the payload shape the handler reads. -/
structure Body where
  customerId : Option String
  environmentId : Option String
  deploymentType : Option String
  deploymentDetails : Option Obj
  customerDetails : Option Obj
  environmentDetails : Option Obj
  resources : Option (List Obj)
  endpoints : Option (List Obj)
deriving DecidableEq

/-- The `results` aggregate object of the handler. -/
structure Results where
  deployment : Option String
  customer : Bool
  environment : Bool
  resources : List (Option String)
  endpoints : List (Option String)
deriving DecidableEq

inductive RespBody where
  /-- 400 `{error: ...}` validation response. -/
  | invalid (error : String)
  /-- 200 `{success: true, results, executionTime}` response. -/
  | ok (results : Results) (executionTime : Nat)
  /-- 500 `{error: "Operation failed", message: ...}` response. -/
  | failed (error : String) (message : String)
deriving DecidableEq

structure Response where
  status : Nat
  body : RespBody
deriving DecidableEq

/-- The 400 validation response returned when customerId or
environmentId is missing (falsy). -/
def resp400 : Response :=
  ⟨400, .invalid "Please provide customerId and environmentId in the request body"⟩

/-- Bag passed to createDeploymentRecord: `{customerId, environmentId,
deploymentType: body.deploymentType || "Initial",
...body.deploymentDetails}`. -/
def depBag (b : Body) : Obj :=
  ("customerId", b.customerId) ::
  ("environmentId", b.environmentId) ::
  ("deploymentType", some (jsOr b.deploymentType "Initial")) ::
  b.deploymentDetails.getD []

/-- Step 3: `if (body.customerDetails)` upsert one Customer. -/
def custStep (w : World) (b : Body) (rs : RS) :
    Except (JsError × RS) (RS × Bool) :=
  match b.customerDetails with
  | none => .ok (rs, false)
  | some cd => createCustomer w rs (("customerId", b.customerId) :: cd)

/-- Step 4: `if (body.environmentDetails)` upsert one Environment. -/
def envStep (w : World) (b : Body) (rs : RS) :
    Except (JsError × RS) (RS × Bool) :=
  match b.environmentDetails with
  | none => .ok (rs, false)
  | some ed =>
    createEnvironment w rs
      (("customerId", b.customerId) :: ("environmentId", b.environmentId) :: ed)

/-- Step 5 loop body: one createResourceRecord per element, pushing the
element's resourceType into results only after a successful write. -/
def runResources (w : World) (cid dk : Option String) :
    List Obj → RS → List (Option String) →
    Except (JsError × RS) (RS × List (Option String))
  | [], rs, acc => .ok (rs, acc)
  | r :: rest, rs, acc =>
    match createResourceRecord w rs
        (("deploymentId", dk) :: ("customerId", cid) :: r) with
    | .error e => .error e
    | .ok (rs1, _) =>
      runResources w cid dk rest rs1 (acc ++ [r.idx "resourceType"])

def resStep (w : World) (b : Body) (dk : Option String) (rs : RS) :
    Except (JsError × RS) (RS × List (Option String)) :=
  match b.resources with
  | none => .ok (rs, [])
  | some items => runResources w b.customerId dk items rs []

/-- Step 6 loop body: one createEndpoint per element, pushing the
element's serviceType after a successful write. -/
def runEndpoints (w : World) (cid : Option String) :
    List Obj → RS → List (Option String) →
    Except (JsError × RS) (RS × List (Option String))
  | [], rs, acc => .ok (rs, acc)
  | p :: rest, rs, acc =>
    match createEndpoint w rs (("customerId", cid) :: p) with
    | .error e => .error e
    | .ok (rs1, _) =>
      runEndpoints w cid rest rs1 (acc ++ [p.idx "serviceType"])

def endpStep (w : World) (b : Body) (rs : RS) :
    Except (JsError × RS) (RS × List (Option String)) :=
  match b.endpoints with
  | none => .ok (rs, [])
  | some items => runEndpoints w b.customerId items rs []

/-- Steps 2-6 of the handler: Deployment, then optional Customer, then
optional Environment, then the resources loop, then the endpoints
loop, assembling the `results` aggregate. -/
def runBody (w : World) (b : Body) (rs : RS) :
    Except (JsError × RS) (RS × Results) :=
  match createDeploymentRecord w rs (depBag b) with
  | .error e => .error e
  | .ok (rs1, dk) =>
    match custStep w b rs1 with
    | .error e => .error e
    | .ok (rs2, custOk) =>
      match envStep w b rs2 with
      | .error e => .error e
      | .ok (rs3, envOk) =>
        match resStep w b dk rs3 with
        | .error e => .error e
        | .ok (rs4, resTypes) =>
          match endpStep w b rs4 with
          | .error e => .error e
          | .ok (rs5, endpTypes) =>
            .ok (rs5, ⟨dk, custOk, envOk, resTypes, endpTypes⟩)

/-- The HTTP handler.  Reads the clock once for startTime (tick 0),
validates presence/truthiness of customerId and environmentId (falsy
check `!body || !body.customerId || !body.environmentId`), runs steps
2-6, and maps the outcome to a response: 200 with results and elapsed
time on success, 500 `Operation failed` on any thrown error. -/
def handler (w : World) (st0 : Store) (body? : Option Body) :
    Response × RS :=
  let startTime := w.clock 0
  let rs0 : RS := ⟨1, 0, st0, []⟩
  match body? with
  | none => (resp400, rs0)
  | some b =>
    if falsyOpt b.customerId || falsyOpt b.environmentId then (resp400, rs0)
    else
      match runBody w b rs0 with
      | .error (e, rsE) => (⟨500, .failed "Operation failed" e.message⟩, rsE)
      | .ok (rsF, results) =>
        let endTime := w.clock rsF.tick
        (⟨200, .ok results (endTime - startTime)⟩,
          ⟨rsF.tick + 1, rsF.call, rsF.store, rsF.trace⟩)

/-! Basic algebra of `Obj.idx` (last-binding-wins lookup) and the
table operations. -/

theorem hasKey_cons (p : String × Option String) (l : Obj) (k : String) :
    hasKey (p :: l) k = (decide (p.1 = k) || hasKey l k) := by
  simp [hasKey]

theorem idx_foldl (l : Obj) (k : String) (x : Option String) :
    l.foldl (fun a p => if p.1 = k then p.2 else a) x =
      if hasKey l k then Obj.idx l k else x := by
  induction l generalizing x with
  | nil => simp [hasKey, Obj.idx]
  | cons p rest ih =>
    have hidx : Obj.idx (p :: rest) k =
        if hasKey rest k then Obj.idx rest k
        else if p.1 = k then p.2 else none := by
      simp only [Obj.idx, List.foldl_cons]
      exact ih _
    simp only [List.foldl_cons]
    rw [ih, hidx, hasKey_cons]
    by_cases hp : p.1 = k <;> by_cases hr : hasKey rest k <;> simp [hp, hr]

theorem idx_cons (p : String × Option String) (l : Obj) (k : String) :
    Obj.idx (p :: l) k =
      if hasKey l k then Obj.idx l k else if p.1 = k then p.2 else none := by
  simp only [Obj.idx, List.foldl_cons]
  rw [idx_foldl]
  rfl

theorem idx_append (a b : Obj) (k : String) :
    Obj.idx (a ++ b) k = if hasKey b k then Obj.idx b k else Obj.idx a k := by
  simp only [Obj.idx, List.foldl_append]
  rw [idx_foldl]
  rfl

theorem hasKey_append (a b : Obj) (k : String) :
    hasKey (a ++ b) k = (hasKey a k || hasKey b k) := by
  simp [hasKey, List.any_append]

/-- Spread override: when the caller bag has the key, the last binding
comes from the bag, whatever fixed fields precede it. -/
theorem idx_append_hasKey (a b : Obj) (k : String) (h : hasKey b k = true) :
    Obj.idx (a ++ b) k = Obj.idx b k := by
  rw [idx_append, h, if_pos rfl]

theorem idx_of_not_hasKey (l : Obj) (k : String) (h : hasKey l k = false) :
    Obj.idx l k = none := by
  have h2 := idx_foldl l k none
  rw [h] at h2
  simpa [Obj.idx] using h2

theorem countKey_cons (e : Entity) (t : Table) (k : Option String × Option String) :
    countKey (e :: t) k =
      (if entityKey e = k then 1 else 0) + countKey t k := by
  by_cases h : entityKey e = k <;> (simp [countKey, h]; try omega)

theorem countKey_upsert_self (t : Table) (e : Entity)
    (h : countKey t (entityKey e) ≤ 1) :
    countKey (upsertReplace t e) (entityKey e) = 1 := by
  induction t with
  | nil => simp [upsertReplace, countKey]
  | cons r rest ih =>
    by_cases hk : entityKey r = entityKey e
    · have hrest : countKey rest (entityKey e) = 0 := by
        have := countKey_cons r rest (entityKey e)
        rw [if_pos hk] at this
        omega
      simp only [upsertReplace, if_pos hk]
      rw [countKey_cons, if_pos rfl, hrest]
    · have hrest : countKey rest (entityKey e) ≤ 1 := by
        have := countKey_cons r rest (entityKey e)
        rw [if_neg hk] at this
        omega
      simp only [upsertReplace, if_neg hk]
      rw [countKey_cons, if_neg hk, ih hrest]

theorem lookupKey_upsert_self (t : Table) (e : Entity) :
    lookupKey (upsertReplace t e) (entityKey e) = some e := by
  induction t with
  | nil => simp [upsertReplace, lookupKey]
  | cons r rest ih =>
    by_cases hk : entityKey r = entityKey e
    · simp [upsertReplace, hk, lookupKey]
    · simp only [upsertReplace, if_neg hk]
      simp only [lookupKey, List.find?] at ih ⊢
      simp [hk, ih]

theorem mem_upsert_self (t : Table) (e : Entity) :
    e ∈ upsertReplace t e := by
  induction t with
  | nil => simp [upsertReplace]
  | cons r rest ih =>
    by_cases hk : entityKey r = entityKey e <;>
      simp [upsertReplace, hk, ih]

/-! Equational characterizations of the five adapter operations, one
for a succeeding store call and one for a failing store call. -/

theorem createCustomer_ok (w : World) (rs : RS) (d : Obj)
    (h : w.outcomes rs.call = none) :
    createCustomer w rs d = .ok
      (⟨rs.tick + 1, rs.call + 1,
        { rs.store with customers := upsertReplace rs.store.customers (customerEntity (isoStr (w.clock rs.tick)) d) },
        rs.trace ++ [Write.cust (customerEntity (isoStr (w.clock rs.tick)) d)]⟩,
       true) := by
  simp [createCustomer, h]

theorem createCustomer_fail (w : World) (rs : RS) (d : Obj) (err : JsError)
    (h : w.outcomes rs.call = some err) :
    createCustomer w rs d = .error
      (⟨"Error", "Customer operation failed: " ++ err.message⟩,
       ⟨rs.tick + 1, rs.call + 1, rs.store, rs.trace⟩) := by
  simp [createCustomer, h]

theorem createEnvironment_ok (w : World) (rs : RS) (d : Obj)
    (h : w.outcomes rs.call = none) :
    createEnvironment w rs d = .ok
      (⟨rs.tick + 1, rs.call + 1,
        { rs.store with environments := upsertReplace rs.store.environments (environmentEntity (isoStr (w.clock rs.tick)) d) },
        rs.trace ++ [Write.env (environmentEntity (isoStr (w.clock rs.tick)) d)]⟩,
       true) := by
  simp [createEnvironment, h]

theorem createEnvironment_fail (w : World) (rs : RS) (d : Obj) (err : JsError)
    (h : w.outcomes rs.call = some err) :
    createEnvironment w rs d = .error
      (⟨"Error", "Environment operation failed: " ++ err.message⟩,
       ⟨rs.tick + 1, rs.call + 1, rs.store, rs.trace⟩) := by
  simp [createEnvironment, h]

theorem createDeploymentRecord_ok (w : World) (rs : RS) (d : Obj)
    (h : w.outcomes rs.call = none) :
    createDeploymentRecord w rs d = .ok
      (⟨rs.tick + 2, rs.call + 1,
        { rs.store with deployments := createAppend rs.store.deployments (deploymentEntity (w.clock rs.tick) (isoStr (w.clock (rs.tick + 1))) d) },
        rs.trace ++ [Write.dep
          (deploymentEntity (w.clock rs.tick) (isoStr (w.clock (rs.tick + 1))) d)]⟩,
       Obj.idx (deploymentEntity (w.clock rs.tick) (isoStr (w.clock (rs.tick + 1))) d)
         "rowKey") := by
  simp [createDeploymentRecord, h]

theorem createDeploymentRecord_fail (w : World) (rs : RS) (d : Obj) (err : JsError)
    (h : w.outcomes rs.call = some err) :
    createDeploymentRecord w rs d = .error
      (⟨"Error", "Deployment operation failed: " ++ err.message⟩,
       ⟨rs.tick + 2, rs.call + 1, rs.store, rs.trace⟩) := by
  simp [createDeploymentRecord, h]

theorem createResourceRecord_ok (w : World) (rs : RS) (d : Obj)
    (h : w.outcomes rs.call = none) :
    createResourceRecord w rs d = .ok
      (⟨rs.tick + 2, rs.call + 1,
        { rs.store with resources := createAppend rs.store.resources (resourceEntity (w.clock rs.tick) (isoStr (w.clock (rs.tick + 1))) d) },
        rs.trace ++ [Write.res
          (resourceEntity (w.clock rs.tick) (isoStr (w.clock (rs.tick + 1))) d)]⟩,
       true) := by
  simp [createResourceRecord, h]

theorem createResourceRecord_fail (w : World) (rs : RS) (d : Obj) (err : JsError)
    (h : w.outcomes rs.call = some err) :
    createResourceRecord w rs d = .error
      (⟨"Error", "Resource operation failed: " ++ err.message⟩,
       ⟨rs.tick + 2, rs.call + 1, rs.store, rs.trace⟩) := by
  simp [createResourceRecord, h]

theorem createEndpoint_ok (w : World) (rs : RS) (d : Obj)
    (h : w.outcomes rs.call = none) :
    createEndpoint w rs d = .ok
      (⟨rs.tick + 2, rs.call + 1,
        { rs.store with endpoints := createAppend rs.store.endpoints (endpointEntity (w.clock rs.tick) (isoStr (w.clock (rs.tick + 1))) d) },
        rs.trace ++ [Write.endp
          (endpointEntity (w.clock rs.tick) (isoStr (w.clock (rs.tick + 1))) d)]⟩,
       true) := by
  simp [createEndpoint, h]

theorem createEndpoint_fail (w : World) (rs : RS) (d : Obj) (err : JsError)
    (h : w.outcomes rs.call = some err) :
    createEndpoint w rs d = .error
      (⟨"Error", "Endpoint operation failed: " ++ err.message⟩,
       ⟨rs.tick + 2, rs.call + 1, rs.store, rs.trace⟩) := by
  simp [createEndpoint, h]

/-! The planned write sequence of one request, derived from the
handler's fixed step order: Deployment, optional Customer, optional
Environment, each resource in array order, each endpoint in array
order.  These lists are proved equal to the writes the handler
actually performs. -/

/-- Number of store calls (and of clock reads) the optional Customer
step makes. -/
def custTicks (b : Body) : Nat :=
  match b.customerDetails with
  | none => 0
  | some _ => 1

/-- Number of store calls (and of clock reads) the optional
Environment step makes. -/
def envTicks (b : Body) : Nat :=
  match b.environmentDetails with
  | none => 0
  | some _ => 1

def custWrites (clock : Nat → Nat) (b : Body) (t : Nat) : List Write :=
  match b.customerDetails with
  | none => []
  | some cd =>
    [Write.cust (customerEntity (isoStr (clock t))
      (("customerId", b.customerId) :: cd))]

def envWrites (clock : Nat → Nat) (b : Body) (t : Nat) : List Write :=
  match b.environmentDetails with
  | none => []
  | some ed =>
    [Write.env (environmentEntity (isoStr (clock t))
      (("customerId", b.customerId) :: ("environmentId", b.environmentId) :: ed))]

def resWrites (clock : Nat → Nat) (cid dk : Option String) :
    Nat → List Obj → List Write
  | _, [] => []
  | t, r :: rest =>
    Write.res (resourceEntity (clock t) (isoStr (clock (t + 1)))
      (("deploymentId", dk) :: ("customerId", cid) :: r)) ::
    resWrites clock cid dk (t + 2) rest

def endpWrites (clock : Nat → Nat) (cid : Option String) :
    Nat → List Obj → List Write
  | _, [] => []
  | t, p :: rest =>
    Write.endp (endpointEntity (clock t) (isoStr (clock (t + 1)))
      (("customerId", cid) :: p)) ::
    endpWrites clock cid (t + 2) rest

/-- The Deployment entity the handler writes when its clock reads
start at tick `t`. -/
def depEnt (clock : Nat → Nat) (b : Body) (t : Nat) : Entity :=
  deploymentEntity (clock t) (isoStr (clock (t + 1))) (depBag b)

def fullWrites (clock : Nat → Nat) (b : Body) (t0 : Nat) : List Write :=
  Write.dep (depEnt clock b t0) ::
    (custWrites clock b (t0 + 2) ++
     envWrites clock b (t0 + 2 + custTicks b) ++
     resWrites clock b.customerId (Obj.idx (depEnt clock b t0) "rowKey")
       (t0 + 2 + custTicks b + envTicks b) (b.resources.getD []) ++
     endpWrites clock b.customerId
       (t0 + 2 + custTicks b + envTicks b + 2 * (b.resources.getD []).length)
       (b.endpoints.getD []))

/-- Total number of clock reads made by steps 2-6. -/
def totalTicks (b : Body) : Nat :=
  2 + custTicks b + envTicks b + 2 * (b.resources.getD []).length +
    2 * (b.endpoints.getD []).length

/-- Total number of store calls made by steps 2-6. -/
def plannedCalls (b : Body) : Nat :=
  1 + custTicks b + envTicks b + (b.resources.getD []).length +
    (b.endpoints.getD []).length

/-- The entity-kind sequence of the planned writes. -/
def plannedKinds (b : Body) : List WKind :=
  WKind.dep ::
    ((if b.customerDetails.isSome then [WKind.cust] else []) ++
     (if b.environmentDetails.isSome then [WKind.env] else []) ++
     (b.resources.getD []).map (fun _ => WKind.res) ++
     (b.endpoints.getD []).map (fun _ => WKind.endp))

/-- The `results` aggregate a fully successful request reports. -/
def resultsOf (clock : Nat → Nat) (b : Body) (t0 : Nat) : Results :=
  ⟨Obj.idx (depEnt clock b t0) "rowKey",
   b.customerDetails.isSome, b.environmentDetails.isSome,
   (b.resources.getD []).map (fun r => r.idx "resourceType"),
   (b.endpoints.getD []).map (fun p => p.idx "serviceType")⟩

/-- Effect of one write on the store: Deployment, Resource and
Endpoint writes append; Customer and Environment writes replace-or-
insert by key.  No write deletes anything. -/
def applyWrite (st : Store) : Write → Store
  | .dep e => { st with deployments := createAppend st.deployments e }
  | .cust e => { st with customers := upsertReplace st.customers e }
  | .env e => { st with environments := upsertReplace st.environments e }
  | .res e => { st with resources := createAppend st.resources e }
  | .endp e => { st with endpoints := createAppend st.endpoints e }

def applyWrites (st : Store) (l : List Write) : Store :=
  l.foldl applyWrite st

theorem applyWrites_append (st : Store) (a b : List Write) :
    applyWrites st (a ++ b) = applyWrites (applyWrites st a) b := by
  simp [applyWrites, List.foldl_append]

/-! Characterization of the resource and endpoint loops. -/

theorem runResources_ok (w : World) (cid dk : Option String) (items : List Obj) :
    ∀ (rs : RS) (acc : List (Option String)),
    (∀ j, j < items.length → w.outcomes (rs.call + j) = none) →
    runResources w cid dk items rs acc = .ok
      (⟨rs.tick + 2 * items.length, rs.call + items.length,
        applyWrites rs.store (resWrites w.clock cid dk rs.tick items),
        rs.trace ++ resWrites w.clock cid dk rs.tick items⟩,
       acc ++ items.map (fun r => r.idx "resourceType")) := by
  induction items with
  | nil =>
    intro rs acc _
    simp [runResources, resWrites, applyWrites]
  | cons r rest ih =>
    intro rs acc h
    have h0 : w.outcomes rs.call = none := by simpa using h 0 (by simp)
    have hnext : ∀ j, j < rest.length →
        w.outcomes (rs.call + 1 + j) = none := by
      intro j hj
      have h2 := h (j + 1) (by simpa using Nat.succ_lt_succ hj)
      rwa [show rs.call + 1 + j = rs.call + (j + 1) by omega]
    simp only [runResources]
    rw [createResourceRecord_ok w rs _ h0]
    dsimp only
    rw [ih _ _ hnext]
    simp only [Except.ok.injEq, Prod.mk.injEq, RS.mk.injEq]
    refine ⟨⟨?_, ?_, ?_, ?_⟩, ?_⟩
    · simp only [List.length_cons]; omega
    · simp only [List.length_cons]; omega
    · simp [resWrites, applyWrites, applyWrite]
    · simp [resWrites, List.append_assoc]
    · simp

theorem runEndpoints_ok (w : World) (cid : Option String) (items : List Obj) :
    ∀ (rs : RS) (acc : List (Option String)),
    (∀ j, j < items.length → w.outcomes (rs.call + j) = none) →
    runEndpoints w cid items rs acc = .ok
      (⟨rs.tick + 2 * items.length, rs.call + items.length,
        applyWrites rs.store (endpWrites w.clock cid rs.tick items),
        rs.trace ++ endpWrites w.clock cid rs.tick items⟩,
       acc ++ items.map (fun p => p.idx "serviceType")) := by
  induction items with
  | nil =>
    intro rs acc _
    simp [runEndpoints, endpWrites, applyWrites]
  | cons p rest ih =>
    intro rs acc h
    have h0 : w.outcomes rs.call = none := by simpa using h 0 (by simp)
    have hnext : ∀ j, j < rest.length →
        w.outcomes (rs.call + 1 + j) = none := by
      intro j hj
      have h2 := h (j + 1) (by simpa using Nat.succ_lt_succ hj)
      rwa [show rs.call + 1 + j = rs.call + (j + 1) by omega]
    simp only [runEndpoints]
    rw [createEndpoint_ok w rs _ h0]
    dsimp only
    rw [ih _ _ hnext]
    simp only [Except.ok.injEq, Prod.mk.injEq, RS.mk.injEq]
    refine ⟨⟨?_, ?_, ?_, ?_⟩, ?_⟩
    · simp only [List.length_cons]; omega
    · simp only [List.length_cons]; omega
    · simp [endpWrites, applyWrites, applyWrite]
    · simp [endpWrites, List.append_assoc]
    · simp

theorem runResources_fail (w : World) (cid dk : Option String)
    (items : List Obj) :
    ∀ (rs : RS) (acc : List (Option String)) (k : Nat) (err : JsError),
    k < items.length →
    (∀ j, j < k → w.outcomes (rs.call + j) = none) →
    w.outcomes (rs.call + k) = some err →
    runResources w cid dk items rs acc = .error
      (⟨"Error", "Resource operation failed: " ++ err.message⟩,
       ⟨rs.tick + 2 * k + 2, rs.call + k + 1,
        applyWrites rs.store (resWrites w.clock cid dk rs.tick (items.take k)),
        rs.trace ++ resWrites w.clock cid dk rs.tick (items.take k)⟩) := by
  induction items with
  | nil => intro rs acc k err hk _ _; exact absurd hk (by simp)
  | cons r rest ih =>
    intro rs acc k err hk hok hfail
    match k with
    | 0 =>
      have h0 : w.outcomes rs.call = some err := by simpa using hfail
      simp only [runResources]
      rw [createResourceRecord_fail w rs _ err h0]
      simp [resWrites, applyWrites]
    | k + 1 =>
      have h0 : w.outcomes rs.call = none := by simpa using hok 0 (by omega)
      have hok1 : ∀ j, j < k → w.outcomes (rs.call + 1 + j) = none := by
        intro j hj
        have h2 := hok (j + 1) (by omega)
        rwa [show rs.call + 1 + j = rs.call + (j + 1) by omega]
      have hfail1 : w.outcomes (rs.call + 1 + k) = some err := by
        rwa [show rs.call + 1 + k = rs.call + (k + 1) by omega]
      simp only [runResources]
      rw [createResourceRecord_ok w rs _ h0]
      dsimp only
      rw [ih _ _ k err (by simpa using Nat.lt_of_succ_lt_succ hk) hok1 hfail1]
      simp only [Except.error.injEq, Prod.mk.injEq, RS.mk.injEq]
      refine ⟨trivial, ?_, ?_, ?_, ?_⟩
      · omega
      · omega
      · simp [List.take_succ_cons, resWrites, applyWrites, applyWrite]
      · simp [List.take_succ_cons, resWrites, List.append_assoc]

theorem runEndpoints_fail (w : World) (cid : Option String)
    (items : List Obj) :
    ∀ (rs : RS) (acc : List (Option String)) (k : Nat) (err : JsError),
    k < items.length →
    (∀ j, j < k → w.outcomes (rs.call + j) = none) →
    w.outcomes (rs.call + k) = some err →
    runEndpoints w cid items rs acc = .error
      (⟨"Error", "Endpoint operation failed: " ++ err.message⟩,
       ⟨rs.tick + 2 * k + 2, rs.call + k + 1,
        applyWrites rs.store (endpWrites w.clock cid rs.tick (items.take k)),
        rs.trace ++ endpWrites w.clock cid rs.tick (items.take k)⟩) := by
  induction items with
  | nil => intro rs acc k err hk _ _; exact absurd hk (by simp)
  | cons p rest ih =>
    intro rs acc k err hk hok hfail
    match k with
    | 0 =>
      have h0 : w.outcomes rs.call = some err := by simpa using hfail
      simp only [runEndpoints]
      rw [createEndpoint_fail w rs _ err h0]
      simp [endpWrites, applyWrites]
    | k + 1 =>
      have h0 : w.outcomes rs.call = none := by simpa using hok 0 (by omega)
      have hok1 : ∀ j, j < k → w.outcomes (rs.call + 1 + j) = none := by
        intro j hj
        have h2 := hok (j + 1) (by omega)
        rwa [show rs.call + 1 + j = rs.call + (j + 1) by omega]
      have hfail1 : w.outcomes (rs.call + 1 + k) = some err := by
        rwa [show rs.call + 1 + k = rs.call + (k + 1) by omega]
      simp only [runEndpoints]
      rw [createEndpoint_ok w rs _ h0]
      dsimp only
      rw [ih _ _ k err (by simpa using Nat.lt_of_succ_lt_succ hk) hok1 hfail1]
      simp only [Except.error.injEq, Prod.mk.injEq, RS.mk.injEq]
      refine ⟨trivial, ?_, ?_, ?_, ?_⟩
      · omega
      · omega
      · simp [List.take_succ_cons, endpWrites, applyWrites, applyWrite]
      · simp [List.take_succ_cons, endpWrites, List.append_assoc]

theorem applyWrites_cons (st : Store) (x : Write) (l : List Write) :
    applyWrites st (x :: l) = applyWrites (applyWrite st x) l := by
  simp [applyWrites]

theorem custWrites_length (clock : Nat → Nat) (b : Body) (t : Nat) :
    (custWrites clock b t).length = custTicks b := by
  cases hc : b.customerDetails <;> simp [custWrites, custTicks, hc]

theorem envWrites_length (clock : Nat → Nat) (b : Body) (t : Nat) :
    (envWrites clock b t).length = envTicks b := by
  cases hc : b.environmentDetails <;> simp [envWrites, envTicks, hc]

theorem resWrites_length (clock : Nat → Nat) (cid dk : Option String) :
    ∀ (t : Nat) (items : List Obj),
    (resWrites clock cid dk t items).length = items.length := by
  intro t items
  induction items generalizing t with
  | nil => simp [resWrites]
  | cons r rest ih => simp [resWrites, ih]

theorem endpWrites_length (clock : Nat → Nat) (cid : Option String) :
    ∀ (t : Nat) (items : List Obj),
    (endpWrites clock cid t items).length = items.length := by
  intro t items
  induction items generalizing t with
  | nil => simp [endpWrites]
  | cons p rest ih => simp [endpWrites, ih]

theorem resWrites_take (clock : Nat → Nat) (cid dk : Option String) :
    ∀ (t : Nat) (items : List Obj) (n : Nat),
    resWrites clock cid dk t (items.take n) =
      (resWrites clock cid dk t items).take n := by
  intro t items
  induction items generalizing t with
  | nil => intro n; simp [resWrites]
  | cons r rest ih =>
    intro n
    cases n with
    | zero => simp [resWrites]
    | succ m => simp [resWrites, List.take_succ_cons, ih]

theorem endpWrites_take (clock : Nat → Nat) (cid : Option String) :
    ∀ (t : Nat) (items : List Obj) (n : Nat),
    endpWrites clock cid t (items.take n) =
      (endpWrites clock cid t items).take n := by
  intro t items
  induction items generalizing t with
  | nil => intro n; simp [endpWrites]
  | cons p rest ih =>
    intro n
    cases n with
    | zero => simp [endpWrites]
    | succ m => simp [endpWrites, List.take_succ_cons, ih]

/-! Step-level characterizations (components of the running state made
explicit so the handler-level proofs can instantiate them). -/

theorem custStep_ok (w : World) (b : Body) (t c : Nat) (st : Store)
    (tr : List Write)
    (h : ∀ j, j < custTicks b → w.outcomes (c + j) = none) :
    custStep w b ⟨t, c, st, tr⟩ = .ok
      (⟨t + custTicks b, c + custTicks b,
        applyWrites st (custWrites w.clock b t),
        tr ++ custWrites w.clock b t⟩,
       b.customerDetails.isSome) := by
  cases hc : b.customerDetails with
  | none => simp [custStep, hc, custTicks, custWrites, applyWrites]
  | some cd =>
    have h0 : w.outcomes c = none := by
      simpa using h 0 (by simp [custTicks, hc])
    simp only [custStep, hc]
    rw [createCustomer_ok w ⟨t, c, st, tr⟩ _ h0]
    simp [custTicks, custWrites, hc, applyWrites, applyWrite]

theorem custStep_fail (w : World) (b : Body) (t c : Nat) (st : Store)
    (tr : List Write) (k : Nat) (err : JsError)
    (hk : k < custTicks b)
    (hfail : w.outcomes (c + k) = some err) :
    custStep w b ⟨t, c, st, tr⟩ = .error
      (⟨"Error", "Customer operation failed: " ++ err.message⟩,
       ⟨t + 1, c + 1, st, tr⟩) := by
  cases hc : b.customerDetails with
  | none => simp [custTicks, hc] at hk
  | some cd =>
    have hk0 : k = 0 := by simp [custTicks, hc] at hk; omega
    subst hk0
    have h0 : w.outcomes c = some err := by simpa using hfail
    simp only [custStep, hc]
    rw [createCustomer_fail w ⟨t, c, st, tr⟩ _ err h0]

theorem envStep_ok (w : World) (b : Body) (t c : Nat) (st : Store)
    (tr : List Write)
    (h : ∀ j, j < envTicks b → w.outcomes (c + j) = none) :
    envStep w b ⟨t, c, st, tr⟩ = .ok
      (⟨t + envTicks b, c + envTicks b,
        applyWrites st (envWrites w.clock b t),
        tr ++ envWrites w.clock b t⟩,
       b.environmentDetails.isSome) := by
  cases hc : b.environmentDetails with
  | none => simp [envStep, hc, envTicks, envWrites, applyWrites]
  | some ed =>
    have h0 : w.outcomes c = none := by
      simpa using h 0 (by simp [envTicks, hc])
    simp only [envStep, hc]
    rw [createEnvironment_ok w ⟨t, c, st, tr⟩ _ h0]
    simp [envTicks, envWrites, hc, applyWrites, applyWrite]

theorem envStep_fail (w : World) (b : Body) (t c : Nat) (st : Store)
    (tr : List Write) (k : Nat) (err : JsError)
    (hk : k < envTicks b)
    (hfail : w.outcomes (c + k) = some err) :
    envStep w b ⟨t, c, st, tr⟩ = .error
      (⟨"Error", "Environment operation failed: " ++ err.message⟩,
       ⟨t + 1, c + 1, st, tr⟩) := by
  cases hc : b.environmentDetails with
  | none => simp [envTicks, hc] at hk
  | some ed =>
    have hk0 : k = 0 := by simp [envTicks, hc] at hk; omega
    subst hk0
    have h0 : w.outcomes c = some err := by simpa using hfail
    simp only [envStep, hc]
    rw [createEnvironment_fail w ⟨t, c, st, tr⟩ _ err h0]

theorem resStep_ok (w : World) (b : Body) (dk : Option String)
    (t c : Nat) (st : Store) (tr : List Write)
    (h : ∀ j, j < (b.resources.getD []).length → w.outcomes (c + j) = none) :
    resStep w b dk ⟨t, c, st, tr⟩ = .ok
      (⟨t + 2 * (b.resources.getD []).length,
        c + (b.resources.getD []).length,
        applyWrites st
          (resWrites w.clock b.customerId dk t (b.resources.getD [])),
        tr ++ resWrites w.clock b.customerId dk t (b.resources.getD [])⟩,
       (b.resources.getD []).map (fun r => r.idx "resourceType")) := by
  cases hr : b.resources with
  | none => simp [resStep, hr, resWrites, applyWrites]
  | some items =>
    have h' : ∀ j, j < items.length → w.outcomes (c + j) = none := by
      intro j hj
      apply h
      rw [hr]
      simpa using hj
    simp only [resStep, hr]
    rw [runResources_ok w b.customerId dk items ⟨t, c, st, tr⟩ [] h']
    simp [hr]

theorem resStep_fail (w : World) (b : Body) (dk : Option String)
    (t c : Nat) (st : Store) (tr : List Write) (k : Nat) (err : JsError)
    (hk : k < (b.resources.getD []).length)
    (hok : ∀ j, j < k → w.outcomes (c + j) = none)
    (hfail : w.outcomes (c + k) = some err) :
    resStep w b dk ⟨t, c, st, tr⟩ = .error
      (⟨"Error", "Resource operation failed: " ++ err.message⟩,
       ⟨t + 2 * k + 2, c + k + 1,
        applyWrites st
          (resWrites w.clock b.customerId dk t ((b.resources.getD []).take k)),
        tr ++ resWrites w.clock b.customerId dk t
          ((b.resources.getD []).take k)⟩) := by
  cases hr : b.resources with
  | none => rw [hr] at hk; simp at hk
  | some items =>
    have hk' : k < items.length := by rw [hr] at hk; simpa using hk
    simp only [resStep, hr]
    rw [runResources_fail w b.customerId dk items ⟨t, c, st, tr⟩ [] k err
      hk' hok hfail]
    simp [hr]

theorem endpStep_ok (w : World) (b : Body)
    (t c : Nat) (st : Store) (tr : List Write)
    (h : ∀ j, j < (b.endpoints.getD []).length → w.outcomes (c + j) = none) :
    endpStep w b ⟨t, c, st, tr⟩ = .ok
      (⟨t + 2 * (b.endpoints.getD []).length,
        c + (b.endpoints.getD []).length,
        applyWrites st (endpWrites w.clock b.customerId t (b.endpoints.getD [])),
        tr ++ endpWrites w.clock b.customerId t (b.endpoints.getD [])⟩,
       (b.endpoints.getD []).map (fun p => p.idx "serviceType")) := by
  cases hr : b.endpoints with
  | none => simp [endpStep, hr, endpWrites, applyWrites]
  | some items =>
    have h' : ∀ j, j < items.length → w.outcomes (c + j) = none := by
      intro j hj
      apply h
      rw [hr]
      simpa using hj
    simp only [endpStep, hr]
    rw [runEndpoints_ok w b.customerId items ⟨t, c, st, tr⟩ [] h']
    simp [hr]

theorem endpStep_fail (w : World) (b : Body)
    (t c : Nat) (st : Store) (tr : List Write) (k : Nat) (err : JsError)
    (hk : k < (b.endpoints.getD []).length)
    (hok : ∀ j, j < k → w.outcomes (c + j) = none)
    (hfail : w.outcomes (c + k) = some err) :
    endpStep w b ⟨t, c, st, tr⟩ = .error
      (⟨"Error", "Endpoint operation failed: " ++ err.message⟩,
       ⟨t + 2 * k + 2, c + k + 1,
        applyWrites st
          (endpWrites w.clock b.customerId t ((b.endpoints.getD []).take k)),
        tr ++ endpWrites w.clock b.customerId t
          ((b.endpoints.getD []).take k)⟩) := by
  cases hr : b.endpoints with
  | none => rw [hr] at hk; simp at hk
  | some items =>
    have hk' : k < items.length := by rw [hr] at hk; simpa using hk
    simp only [endpStep, hr]
    rw [runEndpoints_fail w b.customerId items ⟨t, c, st, tr⟩ [] k err
      hk' hok hfail]
    simp [hr]

/-- Steps 2-6 on a fully successful run: sequence of writes is exactly
the planned one, and the aggregate is `resultsOf`. -/
theorem runBody_ok (w : World) (b : Body) (rs : RS)
    (h : ∀ j, j < plannedCalls b → w.outcomes (rs.call + j) = none) :
    runBody w b rs = .ok
      (⟨rs.tick + totalTicks b, rs.call + plannedCalls b,
        applyWrites rs.store (fullWrites w.clock b rs.tick),
        rs.trace ++ fullWrites w.clock b rs.tick⟩,
       resultsOf w.clock b rs.tick) := by
  have hposs : 0 < plannedCalls b := by unfold plannedCalls; omega
  have h0 : w.outcomes rs.call = none := by simpa using h 0 hposs
  have hcust : ∀ j, j < custTicks b → w.outcomes (rs.call + 1 + j) = none := by
    intro j hj
    have h2 := h (1 + j) (by unfold plannedCalls; omega)
    rwa [show rs.call + 1 + j = rs.call + (1 + j) by omega]
  have henv : ∀ j, j < envTicks b →
      w.outcomes (rs.call + 1 + custTicks b + j) = none := by
    intro j hj
    have h2 := h (1 + custTicks b + j) (by unfold plannedCalls; omega)
    rwa [show rs.call + 1 + custTicks b + j =
      rs.call + (1 + custTicks b + j) by omega]
  have hres : ∀ j, j < (b.resources.getD []).length →
      w.outcomes (rs.call + 1 + custTicks b + envTicks b + j) = none := by
    intro j hj
    have h2 := h (1 + custTicks b + envTicks b + j)
      (by unfold plannedCalls; omega)
    rwa [show rs.call + 1 + custTicks b + envTicks b + j =
      rs.call + (1 + custTicks b + envTicks b + j) by omega]
  have hendp : ∀ j, j < (b.endpoints.getD []).length →
      w.outcomes (rs.call + 1 + custTicks b + envTicks b +
        (b.resources.getD []).length + j) = none := by
    intro j hj
    have h2 := h (1 + custTicks b + envTicks b +
      (b.resources.getD []).length + j) (by unfold plannedCalls; omega)
    rwa [show rs.call + 1 + custTicks b + envTicks b +
      (b.resources.getD []).length + j =
      rs.call + (1 + custTicks b + envTicks b +
        (b.resources.getD []).length + j) by omega]
  simp only [runBody]
  rw [createDeploymentRecord_ok w rs _ h0]
  dsimp only
  rw [custStep_ok w b (rs.tick + 2) (rs.call + 1) _ _ hcust]
  dsimp only
  rw [envStep_ok w b (rs.tick + 2 + custTicks b)
    (rs.call + 1 + custTicks b) _ _ henv]
  dsimp only
  rw [resStep_ok w b _ (rs.tick + 2 + custTicks b + envTicks b)
    (rs.call + 1 + custTicks b + envTicks b) _ _ hres]
  dsimp only
  rw [endpStep_ok w b
    (rs.tick + 2 + custTicks b + envTicks b + 2 * (b.resources.getD []).length)
    (rs.call + 1 + custTicks b + envTicks b + (b.resources.getD []).length)
    _ _ hendp]
  dsimp only
  simp only [Except.ok.injEq, Prod.mk.injEq, RS.mk.injEq]
  refine ⟨⟨?_, ?_, ?_, ?_⟩, ?_⟩
  · unfold totalTicks; omega
  · unfold plannedCalls; omega
  · simp [fullWrites, depEnt, applyWrites_cons, applyWrites_append, applyWrite]
  · simp [fullWrites, depEnt, List.append_assoc]
  · simp [resultsOf, depEnt]

/-- Steps 2-6 when the store call number `k` (0-based) is the first to
fail: the run aborts with a wrapped error, exactly the first `k`
planned writes were performed and persisted, and no later step runs. -/
theorem runBody_fail (w : World) (b : Body) (rs : RS) (k : Nat) (err : JsError)
    (hk : k < plannedCalls b)
    (hok : ∀ j, j < k → w.outcomes (rs.call + j) = none)
    (hfail : w.outcomes (rs.call + k) = some err) :
    ∃ msg tF, runBody w b rs = .error (⟨"Error", msg⟩,
      ⟨tF, rs.call + k + 1,
       applyWrites rs.store ((fullWrites w.clock b rs.tick).take k),
       rs.trace ++ (fullWrites w.clock b rs.tick).take k⟩) := by
  have hct1 : custTicks b ≤ 1 := by
    cases hc : b.customerDetails <;> simp [custTicks, hc]
  have het1 : envTicks b ≤ 1 := by
    cases hc : b.environmentDetails <;> simp [envTicks, hc]
  have hkP : k < 1 + custTicks b + envTicks b +
      (b.resources.getD []).length + (b.endpoints.getD []).length := by
    simpa [plannedCalls] using hk
  rcases Nat.lt_or_ge k 1 with h1 | h1
  · -- the Deployment write itself fails
    have hk0 : k = 0 := by omega
    subst hk0
    refine ⟨"Deployment operation failed: " ++ err.message, rs.tick + 2, ?_⟩
    simp only [runBody]
    rw [createDeploymentRecord_fail w rs _ err (by simpa using hfail)]
    simp [applyWrites]
  · have h0 : w.outcomes rs.call = none := by simpa using hok 0 (by omega)
    rcases Nat.lt_or_ge k (1 + custTicks b) with h2 | h2
    · -- the Customer write fails
      have hk1 : k = 1 := by omega
      subst hk1
      refine ⟨"Customer operation failed: " ++ err.message,
        rs.tick + 2 + 1, ?_⟩
      simp only [runBody]
      rw [createDeploymentRecord_ok w rs _ h0]
      dsimp only
      rw [custStep_fail w b (rs.tick + 2) (rs.call + 1) _ _ 0 err (by omega)
        (by simpa using hfail)]
      have htake : (fullWrites w.clock b rs.tick).take 1 =
          [Write.dep (depEnt w.clock b rs.tick)] := by
        simp [fullWrites]
      rw [htake]
      simp [applyWrites_cons, applyWrites, applyWrite, depEnt]
    · have hcustOk : ∀ j, j < custTicks b →
          w.outcomes (rs.call + 1 + j) = none := by
        intro j hj
        have h3 := hok (1 + j) (by omega)
        rwa [show rs.call + 1 + j = rs.call + (1 + j) by omega]
      rcases Nat.lt_or_ge k (1 + custTicks b + envTicks b) with h3 | h3
      · -- the Environment write fails
        have hk2 : k = 1 + custTicks b := by omega
        subst hk2
        refine ⟨"Environment operation failed: " ++ err.message,
          rs.tick + 2 + custTicks b + 1, ?_⟩
        simp only [runBody]
        rw [createDeploymentRecord_ok w rs _ h0]
        dsimp only
        rw [custStep_ok w b (rs.tick + 2) (rs.call + 1) _ _ hcustOk]
        dsimp only
        rw [envStep_fail w b (rs.tick + 2 + custTicks b)
          (rs.call + 1 + custTicks b) _ _ 0 err (by omega)
          (by rw [show rs.call + 1 + custTicks b + 0 =
            rs.call + (1 + custTicks b) by omega]; exact hfail)]
        have htake : (fullWrites w.clock b rs.tick).take (1 + custTicks b) =
            Write.dep (depEnt w.clock b rs.tick) ::
              custWrites w.clock b (rs.tick + 2) := by
          simp only [fullWrites]
          rw [show 1 + custTicks b = custTicks b + 1 by omega,
            List.take_succ_cons]
          congr 1
          rw [List.take_append_of_le_length (by
            simp [custWrites_length, envWrites_length, resWrites_length]
            try omega)]
          rw [List.take_append_of_le_length (by
            simp [custWrites_length, envWrites_length])]
          rw [List.take_append_of_le_length (by simp [custWrites_length])]
          rw [← custWrites_length w.clock b (rs.tick + 2), List.take_length]
        rw [htake]
        simp [applyWrites_cons, applyWrites_append, applyWrites, applyWrite,
          depEnt, List.append_assoc]
        omega
      · have henvOk : ∀ j, j < envTicks b →
            w.outcomes (rs.call + 1 + custTicks b + j) = none := by
          intro j hj
          have h4 := hok (1 + custTicks b + j) (by omega)
          rwa [show rs.call + 1 + custTicks b + j =
            rs.call + (1 + custTicks b + j) by omega]
        rcases Nat.lt_or_ge k (1 + custTicks b + envTicks b +
          (b.resources.getD []).length) with h4 | h4
        · -- a Resource write fails
          obtain ⟨k4, rfl⟩ : ∃ k4, k = 1 + custTicks b + envTicks b + k4 :=
            ⟨k - 1 - custTicks b - envTicks b, by omega⟩
          have hk4 : k4 < (b.resources.getD []).length := by omega
          refine ⟨"Resource operation failed: " ++ err.message,
            rs.tick + 2 + custTicks b + envTicks b + 2 * k4 + 2, ?_⟩
          simp only [runBody]
          rw [createDeploymentRecord_ok w rs _ h0]
          dsimp only
          rw [custStep_ok w b (rs.tick + 2) (rs.call + 1) _ _ hcustOk]
          dsimp only
          rw [envStep_ok w b (rs.tick + 2 + custTicks b)
            (rs.call + 1 + custTicks b) _ _ henvOk]
          dsimp only
          rw [resStep_fail w b _ (rs.tick + 2 + custTicks b + envTicks b)
            (rs.call + 1 + custTicks b + envTicks b) _ _ k4 err hk4
            (by
              intro j hj
              have h5 := hok (1 + custTicks b + envTicks b + j) (by omega)
              rwa [show rs.call + 1 + custTicks b + envTicks b + j =
                rs.call + (1 + custTicks b + envTicks b + j) by omega])
            (by rw [show rs.call + 1 + custTicks b + envTicks b + k4 =
              rs.call + (1 + custTicks b + envTicks b + k4) by omega]
                exact hfail)]
          have htake : (fullWrites w.clock b rs.tick).take
              (1 + custTicks b + envTicks b + k4) =
              Write.dep (depEnt w.clock b rs.tick) ::
                (custWrites w.clock b (rs.tick + 2) ++
                 envWrites w.clock b (rs.tick + 2 + custTicks b) ++
                 resWrites w.clock b.customerId
                   (Obj.idx (depEnt w.clock b rs.tick) "rowKey")
                   (rs.tick + 2 + custTicks b + envTicks b)
                   ((b.resources.getD []).take k4)) := by
            simp only [fullWrites]
            rw [show 1 + custTicks b + envTicks b + k4 =
              (custTicks b + envTicks b + k4) + 1 by omega,
              List.take_succ_cons]
            congr 1
            rw [List.take_append_of_le_length (by
              simp [custWrites_length, envWrites_length, resWrites_length]
              try omega)]
            rw [show custTicks b + envTicks b + k4 =
              (custWrites w.clock b (rs.tick + 2) ++
               envWrites w.clock b (rs.tick + 2 + custTicks b)).length + k4 by
                simp [custWrites_length, envWrites_length]
                try omega,
              List.take_append]
            rw [← resWrites_take]
            try simp [List.append_assoc]
          rw [htake]
          simp [applyWrites_cons, applyWrites_append, applyWrites, applyWrite,
            depEnt, List.append_assoc]
          omega
        · -- an Endpoint write fails
          obtain ⟨k5, rfl⟩ : ∃ k5, k = 1 + custTicks b + envTicks b +
              (b.resources.getD []).length + k5 :=
            ⟨k - 1 - custTicks b - envTicks b - (b.resources.getD []).length,
             by omega⟩
          have hk5 : k5 < (b.endpoints.getD []).length := by omega
          refine ⟨"Endpoint operation failed: " ++ err.message,
            rs.tick + 2 + custTicks b + envTicks b +
              2 * (b.resources.getD []).length + 2 * k5 + 2, ?_⟩
          simp only [runBody]
          rw [createDeploymentRecord_ok w rs _ h0]
          dsimp only
          rw [custStep_ok w b (rs.tick + 2) (rs.call + 1) _ _ hcustOk]
          dsimp only
          rw [envStep_ok w b (rs.tick + 2 + custTicks b)
            (rs.call + 1 + custTicks b) _ _ henvOk]
          dsimp only
          rw [resStep_ok w b _ (rs.tick + 2 + custTicks b + envTicks b)
            (rs.call + 1 + custTicks b + envTicks b) _ _
            (by
              intro j hj
              have h5 := hok (1 + custTicks b + envTicks b + j) (by omega)
              rwa [show rs.call + 1 + custTicks b + envTicks b + j =
                rs.call + (1 + custTicks b + envTicks b + j) by omega])]
          dsimp only
          rw [endpStep_fail w b
            (rs.tick + 2 + custTicks b + envTicks b +
              2 * (b.resources.getD []).length)
            (rs.call + 1 + custTicks b + envTicks b +
              (b.resources.getD []).length) _ _ k5 err hk5
            (by
              intro j hj
              have h5 := hok (1 + custTicks b + envTicks b +
                (b.resources.getD []).length + j) (by omega)
              rwa [show rs.call + 1 + custTicks b + envTicks b +
                (b.resources.getD []).length + j =
                rs.call + (1 + custTicks b + envTicks b +
                  (b.resources.getD []).length + j) by omega])
            (by rw [show rs.call + 1 + custTicks b + envTicks b +
              (b.resources.getD []).length + k5 =
              rs.call + (1 + custTicks b + envTicks b +
                (b.resources.getD []).length + k5) by omega]
                exact hfail)]
          have htake : (fullWrites w.clock b rs.tick).take
              (1 + custTicks b + envTicks b +
                (b.resources.getD []).length + k5) =
              Write.dep (depEnt w.clock b rs.tick) ::
                (custWrites w.clock b (rs.tick + 2) ++
                 envWrites w.clock b (rs.tick + 2 + custTicks b) ++
                 resWrites w.clock b.customerId
                   (Obj.idx (depEnt w.clock b rs.tick) "rowKey")
                   (rs.tick + 2 + custTicks b + envTicks b)
                   (b.resources.getD []) ++
                 endpWrites w.clock b.customerId
                   (rs.tick + 2 + custTicks b + envTicks b +
                     2 * (b.resources.getD []).length)
                   ((b.endpoints.getD []).take k5)) := by
            simp only [fullWrites]
            rw [show 1 + custTicks b + envTicks b +
              (b.resources.getD []).length + k5 =
              (custTicks b + envTicks b + (b.resources.getD []).length + k5) + 1
              by omega, List.take_succ_cons]
            congr 1
            rw [show custTicks b + envTicks b +
              (b.resources.getD []).length + k5 =
              (custWrites w.clock b (rs.tick + 2) ++
               envWrites w.clock b (rs.tick + 2 + custTicks b) ++
               resWrites w.clock b.customerId
                 (Obj.idx (depEnt w.clock b rs.tick) "rowKey")
                 (rs.tick + 2 + custTicks b + envTicks b)
                 (b.resources.getD [])).length + k5 by
                simp [custWrites_length, envWrites_length, resWrites_length]
                try omega,
              List.take_append]
            rw [← endpWrites_take]
          rw [htake]
          simp [applyWrites_cons, applyWrites_append, applyWrites, applyWrite,
            depEnt, List.append_assoc]
          omega

/-! Handler-level characterizations. -/

theorem handler_no_body (w : World) (st0 : Store) :
    handler w st0 none = (resp400, ⟨1, 0, st0, []⟩) := by
  simp [handler]

theorem handler_invalid (w : World) (st0 : Store) (b : Body)
    (h : (falsyOpt b.customerId || falsyOpt b.environmentId) = true) :
    handler w st0 (some b) = (resp400, ⟨1, 0, st0, []⟩) := by
  simp [handler, h]

theorem handler_all_ok (clock : Nat → Nat) (st0 : Store) (b : Body)
    (hv : (falsyOpt b.customerId || falsyOpt b.environmentId) = false) :
    handler ⟨clock, noOutcome⟩ st0 (some b) =
      (⟨200, .ok (resultsOf clock b 1) (clock (1 + totalTicks b) - clock 0)⟩,
       ⟨1 + totalTicks b + 1, plannedCalls b,
        applyWrites st0 (fullWrites clock b 1),
        fullWrites clock b 1⟩) := by
  simp only [handler, hv, Bool.false_eq_true, if_false]
  rw [runBody_ok ⟨clock, noOutcome⟩ b ⟨1, 0, st0, []⟩ (fun j _ => rfl)]
  dsimp only
  simp

theorem handler_first_fail (clock : Nat → Nat)
    (outcomes : Nat → Option JsError) (st0 : Store) (b : Body)
    (k : Nat) (err : JsError)
    (hv : (falsyOpt b.customerId || falsyOpt b.environmentId) = false)
    (hk : k < plannedCalls b)
    (hok : ∀ j, j < k → outcomes j = none)
    (hfail : outcomes k = some err) :
    ∃ msg tF, handler ⟨clock, outcomes⟩ st0 (some b) =
      (⟨500, .failed "Operation failed" msg⟩,
       ⟨tF, k + 1, applyWrites st0 ((fullWrites clock b 1).take k),
        (fullWrites clock b 1).take k⟩) := by
  obtain ⟨msg, tF, e⟩ := runBody_fail ⟨clock, outcomes⟩ b ⟨1, 0, st0, []⟩ k err
    hk (by intro j hj; simpa using hok j hj) (by simpa using hfail)
  refine ⟨msg, tF, ?_⟩
  simp [handler, hv, e]

/-! Kind sequence of the planned writes. -/

theorem custWrites_kinds (clock : Nat → Nat) (b : Body) (t : Nat) :
    (custWrites clock b t).map writeKind =
      (if b.customerDetails.isSome then [WKind.cust] else []) := by
  cases hc : b.customerDetails <;> simp [custWrites, hc, writeKind]

theorem envWrites_kinds (clock : Nat → Nat) (b : Body) (t : Nat) :
    (envWrites clock b t).map writeKind =
      (if b.environmentDetails.isSome then [WKind.env] else []) := by
  cases hc : b.environmentDetails <;> simp [envWrites, hc, writeKind]

theorem resWrites_kinds (clock : Nat → Nat) (cid dk : Option String) :
    ∀ (t : Nat) (items : List Obj),
    (resWrites clock cid dk t items).map writeKind =
      items.map (fun _ => WKind.res) := by
  intro t items
  induction items generalizing t with
  | nil => simp [resWrites]
  | cons r rest ih => simp [resWrites, writeKind, ih]

theorem endpWrites_kinds (clock : Nat → Nat) (cid : Option String) :
    ∀ (t : Nat) (items : List Obj),
    (endpWrites clock cid t items).map writeKind =
      items.map (fun _ => WKind.endp) := by
  intro t items
  induction items generalizing t with
  | nil => simp [endpWrites]
  | cons p rest ih => simp [endpWrites, writeKind, ih]

theorem fullWrites_kinds (clock : Nat → Nat) (b : Body) (t : Nat) :
    (fullWrites clock b t).map writeKind = plannedKinds b := by
  simp [fullWrites, plannedKinds, custWrites_kinds, envWrites_kinds,
    resWrites_kinds, endpWrites_kinds, writeKind]

theorem plannedKinds_length (b : Body) :
    (plannedKinds b).length = plannedCalls b := by
  cases hc : b.customerDetails <;> cases he : b.environmentDetails <;>
    simp [plannedKinds, plannedCalls, custTicks, envTicks, hc, he] <;> omega

/-! Extractors over write traces (named, so statements stay
lambda-free). -/

/-- Field `k` of an entity. -/
def entityField (k : String) (e : Entity) : Option String := Obj.idx e k

def depEntities : List Write → List Entity
  | [] => []
  | .dep e :: l => e :: depEntities l
  | .cust _ :: l => depEntities l
  | .env _ :: l => depEntities l
  | .res _ :: l => depEntities l
  | .endp _ :: l => depEntities l

def resEntities : List Write → List Entity
  | [] => []
  | .res e :: l => e :: resEntities l
  | .dep _ :: l => resEntities l
  | .cust _ :: l => resEntities l
  | .env _ :: l => resEntities l
  | .endp _ :: l => resEntities l

def endpEntities : List Write → List Entity
  | [] => []
  | .endp e :: l => e :: endpEntities l
  | .dep _ :: l => endpEntities l
  | .cust _ :: l => endpEntities l
  | .env _ :: l => endpEntities l
  | .res _ :: l => endpEntities l

def resourceTypeOf (r : Obj) : Option String := Obj.idx r "resourceType"

def serviceTypeOf (p : Obj) : Option String := Obj.idx p "serviceType"

/-- Number of writes of a given entity kind in a trace. -/
def kindCount (tr : List Write) (kk : WKind) : Nat :=
  (tr.map writeKind).count kk

theorem kindCount_cons (y : Write) (tr : List Write) (kk : WKind) :
    kindCount (y :: tr) kk =
      (if writeKind y = kk then 1 else 0) + kindCount tr kk := by
  by_cases h : writeKind y = kk <;>
    (simp [kindCount, List.count_cons, h]; try omega)

theorem kindCount_eq_count_planned (clock : Nat → Nat) (b : Body) (t : Nat)
    (kk : WKind) :
    kindCount (fullWrites clock b t) kk = (plannedKinds b).count kk := by
  rw [kindCount, fullWrites_kinds]

theorem count_planned_dep (b : Body) :
    (plannedKinds b).count WKind.dep = 1 := by
  cases hc : b.customerDetails <;> cases he : b.environmentDetails <;>
    simp [plannedKinds, hc, he, List.count_append, List.count_cons,
      List.count_replicate]

theorem count_planned_cust (b : Body) :
    (plannedKinds b).count WKind.cust = custTicks b := by
  cases hc : b.customerDetails <;> cases he : b.environmentDetails <;>
    simp [plannedKinds, custTicks, hc, he, List.count_append, List.count_cons,
      List.count_replicate]

theorem count_planned_env (b : Body) :
    (plannedKinds b).count WKind.env = envTicks b := by
  cases hc : b.customerDetails <;> cases he : b.environmentDetails <;>
    simp [plannedKinds, envTicks, hc, he, List.count_append, List.count_cons,
      List.count_replicate]

/-! Persistence: every record written during a request is still in the
store afterwards — there is no delete and no rollback. -/

/-- Whether the record written by `wr` is present in the store. -/
def persistedB (st : Store) : Write → Bool
  | .dep e => decide (e ∈ st.deployments)
  | .cust e => decide (e ∈ st.customers)
  | .env e => decide (e ∈ st.environments)
  | .res e => decide (e ∈ st.resources)
  | .endp e => decide (e ∈ st.endpoints)

theorem persistedB_applyWrite_self (st : Store) (x : Write) :
    persistedB (applyWrite st x) x = true := by
  cases x <;> simp [persistedB, applyWrite, createAppend, mem_upsert_self]

theorem persistedB_preserve (st : Store) (x y : Write)
    (hp : persistedB st x = true)
    (hc : writeKind x = WKind.cust → writeKind y ≠ WKind.cust)
    (he : writeKind x = WKind.env → writeKind y ≠ WKind.env) :
    persistedB (applyWrite st y) x = true := by
  cases x <;> cases y <;>
    simp_all [persistedB, applyWrite, createAppend, writeKind]

theorem persistedB_iter :
    ∀ (tr : List Write) (st : Store) (x : Write),
    persistedB st x = true →
    (writeKind x = WKind.cust → kindCount tr WKind.cust = 0) →
    (writeKind x = WKind.env → kindCount tr WKind.env = 0) →
    persistedB (applyWrites st tr) x = true := by
  intro tr
  induction tr with
  | nil => intro st x hp _ _; simpa [applyWrites] using hp
  | cons y rest ih =>
    intro st x hp hc he
    rw [applyWrites_cons]
    have hcY : writeKind x = WKind.cust → writeKind y ≠ WKind.cust := by
      intro hx hy
      have h2 := hc hx
      rw [kindCount_cons, if_pos hy] at h2
      omega
    have heY : writeKind x = WKind.env → writeKind y ≠ WKind.env := by
      intro hx hy
      have h2 := he hx
      rw [kindCount_cons, if_pos hy] at h2
      omega
    apply ih
    · exact persistedB_preserve st x y hp hcY heY
    · intro hx
      have h2 := hc hx
      rw [kindCount_cons] at h2
      omega
    · intro hx
      have h2 := he hx
      rw [kindCount_cons] at h2
      omega

theorem persist_all :
    ∀ (tr : List Write) (st : Store),
    kindCount tr WKind.cust ≤ 1 → kindCount tr WKind.env ≤ 1 →
    ∀ wr, wr ∈ tr → persistedB (applyWrites st tr) wr = true := by
  intro tr
  induction tr with
  | nil => intro st _ _ wr hwr; simp at hwr
  | cons y rest ih =>
    intro st hcu hev wr hwr
    rw [applyWrites_cons]
    rcases List.mem_cons.mp hwr with rfl | hmem
    · apply persistedB_iter rest _ wr (persistedB_applyWrite_self st wr)
      · intro hx
        rw [kindCount_cons, if_pos hx] at hcu
        omega
      · intro hx
        rw [kindCount_cons, if_pos hx] at hev
        omega
    · apply ih _ _ _ wr hmem
      · rw [kindCount_cons] at hcu; omega
      · rw [kindCount_cons] at hev; omega

/-! Computation of the extractors over the planned write list. -/

theorem depEntities_append (a b : List Write) :
    depEntities (a ++ b) = depEntities a ++ depEntities b := by
  induction a with
  | nil => simp [depEntities]
  | cons x rest ih => cases x <;> simp [depEntities, ih]

theorem resEntities_append (a b : List Write) :
    resEntities (a ++ b) = resEntities a ++ resEntities b := by
  induction a with
  | nil => simp [resEntities]
  | cons x rest ih => cases x <;> simp [resEntities, ih]

theorem endpEntities_append (a b : List Write) :
    endpEntities (a ++ b) = endpEntities a ++ endpEntities b := by
  induction a with
  | nil => simp [endpEntities]
  | cons x rest ih => cases x <;> simp [endpEntities, ih]

theorem depEntities_custWrites (clock : Nat → Nat) (b : Body) (t : Nat) :
    depEntities (custWrites clock b t) = [] := by
  cases hc : b.customerDetails <;> simp [custWrites, hc, depEntities]

theorem depEntities_envWrites (clock : Nat → Nat) (b : Body) (t : Nat) :
    depEntities (envWrites clock b t) = [] := by
  cases hc : b.environmentDetails <;> simp [envWrites, hc, depEntities]

theorem depEntities_resWrites (clock : Nat → Nat) (cid dk : Option String) :
    ∀ (t : Nat) (items : List Obj),
    depEntities (resWrites clock cid dk t items) = [] := by
  intro t items
  induction items generalizing t with
  | nil => simp [resWrites, depEntities]
  | cons r rest ih => simp [resWrites, depEntities, ih]

theorem depEntities_endpWrites (clock : Nat → Nat) (cid : Option String) :
    ∀ (t : Nat) (items : List Obj),
    depEntities (endpWrites clock cid t items) = [] := by
  intro t items
  induction items generalizing t with
  | nil => simp [endpWrites, depEntities]
  | cons p rest ih => simp [endpWrites, depEntities, ih]

theorem depEntities_full (clock : Nat → Nat) (b : Body) (t : Nat) :
    depEntities (fullWrites clock b t) = [depEnt clock b t] := by
  simp [fullWrites, depEntities, depEntities_append, depEntities_custWrites,
    depEntities_envWrites, depEntities_resWrites, depEntities_endpWrites]

/-- The resource entities the handler builds for an item list whose
clock reads start at tick `t`. -/
def resEntsOf (clock : Nat → Nat) (cid dk : Option String) :
    Nat → List Obj → List Entity
  | _, [] => []
  | t, r :: rest =>
    resourceEntity (clock t) (isoStr (clock (t + 1)))
      (("deploymentId", dk) :: ("customerId", cid) :: r) ::
    resEntsOf clock cid dk (t + 2) rest

theorem resEntities_resWrites (clock : Nat → Nat) (cid dk : Option String) :
    ∀ (t : Nat) (items : List Obj),
    resEntities (resWrites clock cid dk t items) =
      resEntsOf clock cid dk t items := by
  intro t items
  induction items generalizing t with
  | nil => simp [resWrites, resEntities, resEntsOf]
  | cons r rest ih => simp [resWrites, resEntities, resEntsOf, ih]

theorem resEntities_custWrites (clock : Nat → Nat) (b : Body) (t : Nat) :
    resEntities (custWrites clock b t) = [] := by
  cases hc : b.customerDetails <;> simp [custWrites, hc, resEntities]

theorem resEntities_envWrites (clock : Nat → Nat) (b : Body) (t : Nat) :
    resEntities (envWrites clock b t) = [] := by
  cases hc : b.environmentDetails <;> simp [envWrites, hc, resEntities]

theorem resEntities_endpWrites (clock : Nat → Nat) (cid : Option String) :
    ∀ (t : Nat) (items : List Obj),
    resEntities (endpWrites clock cid t items) = [] := by
  intro t items
  induction items generalizing t with
  | nil => simp [endpWrites, resEntities]
  | cons p rest ih => simp [endpWrites, resEntities, ih]

theorem resEntities_full (clock : Nat → Nat) (b : Body) (t : Nat) :
    resEntities (fullWrites clock b t) =
      resEntsOf clock b.customerId (Obj.idx (depEnt clock b t) "rowKey")
        (t + 2 + custTicks b + envTicks b) (b.resources.getD []) := by
  simp [fullWrites, resEntities, resEntities_append, resEntities_custWrites,
    resEntities_envWrites, resEntities_resWrites, resEntities_endpWrites]

theorem resEntsOf_length (clock : Nat → Nat) (cid dk : Option String) :
    ∀ (t : Nat) (items : List Obj),
    (resEntsOf clock cid dk t items).length = items.length := by
  intro t items
  induction items generalizing t with
  | nil => simp [resEntsOf]
  | cons r rest ih => simp [resEntsOf, ih]

/-- When a resource element does not itself carry `deploymentId` or
`partitionKey`, the stored Resource entity's partition key is the
deployment key the handler tagged it with. -/
theorem resourceEntity_pk (nowMs : Nat) (iso : String) (dk cid : Option String)
    (r : Obj)
    (h1 : hasKey r "deploymentId" = false)
    (h2 : hasKey r "partitionKey" = false) :
    Obj.idx (resourceEntity nowMs iso
      (("deploymentId", dk) :: ("customerId", cid) :: r)) "partitionKey" =
      dk := by
  simp [resourceEntity, idx_cons, hasKey_cons, h1, h2]

theorem resEntsOf_pk (clock : Nat → Nat) (cid dk : Option String) :
    ∀ (t : Nat) (items : List Obj),
    (∀ r ∈ items, hasKey r "deploymentId" = false ∧
      hasKey r "partitionKey" = false) →
    (resEntsOf clock cid dk t items).map (entityField "partitionKey") =
      List.replicate items.length dk := by
  intro t items
  induction items generalizing t with
  | nil => intro _; simp [resEntsOf]
  | cons r rest ih =>
    intro h
    have hr := h r (by simp)
    simp only [resEntsOf, List.map_cons, List.length_cons,
      List.replicate_succ]
    rw [ih _ (fun x hx => h x (by simp [hx]))]
    simp [entityField, resourceEntity_pk _ _ dk cid r hr.1 hr.2]

/-- Every resource entity reports the element's own resourceType
(unchanged: the tag field is just the element's, the fixed fields do
not carry it). -/
theorem resourceEntity_type (nowMs : Nat) (iso : String)
    (dk cid : Option String) (r : Obj) :
    Obj.idx (resourceEntity nowMs iso
      (("deploymentId", dk) :: ("customerId", cid) :: r)) "resourceType" =
      Obj.idx r "resourceType" := by
  by_cases h : hasKey r "resourceType" <;>
    simp [resourceEntity, idx_cons, hasKey_cons, h, idx_of_not_hasKey]

theorem resEntsOf_types (clock : Nat → Nat) (cid dk : Option String) :
    ∀ (t : Nat) (items : List Obj),
    (resEntsOf clock cid dk t items).map (entityField "resourceType") =
      items.map resourceTypeOf := by
  intro t items
  induction items generalizing t with
  | nil => simp [resEntsOf]
  | cons r rest ih =>
    simp [resEntsOf, entityField, resourceTypeOf, resourceEntity_type, ih]

/-- The endpoint entities the handler builds for an item list whose
clock reads start at tick `t`. -/
def endpEntsOf (clock : Nat → Nat) (cid : Option String) :
    Nat → List Obj → List Entity
  | _, [] => []
  | t, p :: rest =>
    endpointEntity (clock t) (isoStr (clock (t + 1)))
      (("customerId", cid) :: p) ::
    endpEntsOf clock cid (t + 2) rest

theorem endpEntities_endpWrites (clock : Nat → Nat) (cid : Option String) :
    ∀ (t : Nat) (items : List Obj),
    endpEntities (endpWrites clock cid t items) =
      endpEntsOf clock cid t items := by
  intro t items
  induction items generalizing t with
  | nil => simp [endpWrites, endpEntities, endpEntsOf]
  | cons p rest ih => simp [endpWrites, endpEntities, endpEntsOf, ih]

theorem endpEntities_custWrites (clock : Nat → Nat) (b : Body) (t : Nat) :
    endpEntities (custWrites clock b t) = [] := by
  cases hc : b.customerDetails <;> simp [custWrites, hc, endpEntities]

theorem endpEntities_envWrites (clock : Nat → Nat) (b : Body) (t : Nat) :
    endpEntities (envWrites clock b t) = [] := by
  cases hc : b.environmentDetails <;> simp [envWrites, hc, endpEntities]

theorem endpEntities_resWrites (clock : Nat → Nat) (cid dk : Option String) :
    ∀ (t : Nat) (items : List Obj),
    endpEntities (resWrites clock cid dk t items) = [] := by
  intro t items
  induction items generalizing t with
  | nil => simp [resWrites, endpEntities]
  | cons r rest ih => simp [resWrites, endpEntities, ih]

theorem endpEntities_full (clock : Nat → Nat) (b : Body) (t : Nat) :
    endpEntities (fullWrites clock b t) =
      endpEntsOf clock b.customerId
        (t + 2 + custTicks b + envTicks b + 2 * (b.resources.getD []).length)
        (b.endpoints.getD []) := by
  simp [fullWrites, endpEntities, endpEntities_append, endpEntities_custWrites,
    endpEntities_envWrites, endpEntities_resWrites, endpEntities_endpWrites]

theorem endpointEntity_type (nowMs : Nat) (iso : String)
    (cid : Option String) (p : Obj) :
    Obj.idx (endpointEntity nowMs iso (("customerId", cid) :: p))
      "serviceType" = Obj.idx p "serviceType" := by
  by_cases h : hasKey p "serviceType" <;>
    simp [endpointEntity, idx_cons, hasKey_cons, h, idx_of_not_hasKey]

theorem endpEntsOf_types (clock : Nat → Nat) (cid : Option String) :
    ∀ (t : Nat) (items : List Obj),
    (endpEntsOf clock cid t items).map (entityField "serviceType") =
      items.map serviceTypeOf := by
  intro t items
  induction items generalizing t with
  | nil => simp [endpEntsOf]
  | cons p rest ih =>
    simp [endpEntsOf, entityField, serviceTypeOf, endpointEntity_type, ih]

/-- The deploymentType the Deployment entity ends up with, when
deploymentDetails does not itself override that field: the top-level
deploymentType if truthy, "Initial" otherwise. -/
theorem depEnt_deploymentType (clock : Nat → Nat) (b : Body) (t : Nat)
    (h : hasKey (b.deploymentDetails.getD []) "deploymentType" = false) :
    Obj.idx (depEnt clock b t) "deploymentType" =
      some (jsOr b.deploymentType "Initial") := by
  simp [depEnt, deploymentEntity, depBag, idx_cons, hasKey_cons,
    hasKey_append, h]

/-- With no caller override of partitionKey/rowKey, the Customer
entity is keyed (customerId, customerId). -/
theorem customerEntity_key (iso : String) (d : Obj)
    (h1 : hasKey d "partitionKey" = false)
    (h2 : hasKey d "rowKey" = false) :
    entityKey (customerEntity iso d) =
      (Obj.idx d "customerId", Obj.idx d "customerId") := by
  simp [entityKey, customerEntity, idx_cons, hasKey_cons, h1, h2]

/-- With no caller override of partitionKey/rowKey, the Environment
entity is keyed (customerId, environmentId). -/
theorem environmentEntity_key (iso : String) (d : Obj)
    (h1 : hasKey d "partitionKey" = false)
    (h2 : hasKey d "rowKey" = false) :
    entityKey (environmentEntity iso d) =
      (Obj.idx d "customerId", Obj.idx d "environmentId") := by
  simp [entityKey, environmentEntity, idx_cons, hasKey_cons, h1, h2]

/-! Response-body extractors and scenario helpers. -/

def respDepKey (r : Response) : Option String :=
  match r.body with
  | .ok res _ => res.deployment
  | _ => none

def respResources (r : Response) : List (Option String) :=
  match r.body with
  | .ok res _ => res.resources
  | _ => []

/-- Whether the payload carries only the two required identifiers
(no customerDetails, environmentDetails, resources or endpoints). -/
def minimalBody (b : Body) : Bool :=
  b.customerDetails.isNone && b.environmentDetails.isNone &&
    b.resources.isNone && b.endpoints.isNone

/-- The row key a successful createDeploymentRecord call returns. -/
def okKeyOf (x : Except (JsError × RS) (RS × Option String)) :
    Option (Option String) :=
  match x with
  | .ok (_, dk) => some dk
  | .error _ => none

/-- Two consecutive Customer writes with the same data (the C5
idempotence scenario). -/
def runTwiceCustomer (w : World) (st0 : Store) (d : Obj) :
    Except (JsError × RS) (RS × Bool × Bool) :=
  match createCustomer w ⟨0, 0, st0, []⟩ d with
  | .error e => .error e
  | .ok (rs1, r1) =>
    match createCustomer w rs1 d with
    | .error e => .error e
    | .ok (rs2, r2) => .ok (rs2, r1, r2)

/-- Two consecutive Environment writes with the same data. -/
def runTwiceEnvironment (w : World) (st0 : Store) (d : Obj) :
    Except (JsError × RS) (RS × Bool × Bool) :=
  match createEnvironment w ⟨0, 0, st0, []⟩ d with
  | .error e => .error e
  | .ok (rs1, r1) =>
    match createEnvironment w rs1 d with
    | .error e => .error e
    | .ok (rs2, r2) => .ok (rs2, r1, r2)

def twiceOut (x : Except (JsError × RS) (RS × Bool × Bool)) :
    Option (Bool × Bool) :=
  match x with
  | .ok (_, r1, r2) => some (r1, r2)
  | .error _ => none

def twiceCustomers (x : Except (JsError × RS) (RS × Bool × Bool)) : Table :=
  match x with
  | .ok (rs, _) => rs.store.customers
  | .error (_, rs) => rs.store.customers

def twiceEnvironments (x : Except (JsError × RS) (RS × Bool × Bool)) : Table :=
  match x with
  | .ok (rs, _) => rs.store.environments
  | .error (_, rs) => rs.store.environments

/-! Concrete fixtures used by counterexamples and witnesses. -/

def zeroClock : Nat → Nat := fun _ => 0

def wZero : World := ⟨zeroClock, noOutcome⟩

def rs0empty : RS := ⟨0, 0, emptyStore, []⟩

/-! C1 fixtures: write events carrying a sub-millisecond creation
instant; Date.now() truncates the instant to whole milliseconds. -/

/-- A deployment write event: its (customerId, environmentId,
creationInstant) identity, with the instant in microseconds. -/
structure WriteEvent where
  customerId : String
  environmentId : String
  instantMicros : Nat
deriving DecidableEq

/-- The value Date.now() returns at a write event's instant
(millisecond truncation). -/
def dateNowOf (ev : WriteEvent) : Nat := ev.instantMicros / 1000

/-- The Deployment row key createDeploymentRecord generates for a
write event (against an otherwise idle store). -/
def eventDeployKey (ev : WriteEvent) : Option (Option String) :=
  okKeyOf (createDeploymentRecord
    ⟨fun _ => dateNowOf ev, noOutcome⟩ rs0empty
    [("customerId", some ev.customerId),
     ("environmentId", some ev.environmentId)])

/-- C1: the claim says createDeploymentRecord never produces the same
row key for distinct (customerId, environmentId, creationInstant)
write events.  The code derives the key as only
`{Date.now()}_{environmentId}`, so it does: two events for the same
customer and environment within the same millisecond (instants 5000µs
and 5001µs), and likewise two events of different customers at the
same millisecond, all receive the identical row key "5_E1". -/
theorem claim1_rowkey_collision :
    eventDeployKey ⟨"CustA", "E1", 5000⟩ = some (some "5_E1") ∧
    eventDeployKey ⟨"CustA", "E1", 5001⟩ = some (some "5_E1") ∧
    eventDeployKey ⟨"CustB", "E1", 5000⟩ = some (some "5_E1") ∧
    (⟨"CustA", "E1", 5000⟩ : WriteEvent) ≠ ⟨"CustA", "E1", 5001⟩ ∧
    (⟨"CustA", "E1", 5000⟩ : WriteEvent) ≠ ⟨"CustB", "E1", 5000⟩ := by
  refine ⟨?_, ?_, ?_, by decide, by decide⟩ <;> rfl

/-- C3: a request body missing customerId or environmentId is rejected
with the exact 400 validation response; the handler performs no store
call at all (store unchanged, write trace empty). -/
theorem claim3_validation_short_circuit (w : World) (st0 : Store) (b : Body)
    (h : b.customerId = none ∨ b.environmentId = none) :
    handler w st0 (some b) = (resp400, ⟨1, 0, st0, []⟩) ∧
    resp400 = ⟨400, RespBody.invalid
      "Please provide customerId and environmentId in the request body"⟩ := by
  constructor
  · apply handler_invalid
    rcases h with h | h <;> simp [falsyOpt, h]
  · rfl

def bC3 : Body := ⟨none, some "E1", none, none, none, none, none, none⟩

theorem claim3_witness :
    handler wZero emptyStore (some bC3) = (resp400, ⟨1, 0, emptyStore, []⟩) ∧
    resp400 = ⟨400, RespBody.invalid
      "Please provide customerId and environmentId in the request body"⟩ :=
  claim3_validation_short_circuit wZero emptyStore bC3 (Or.inl rfl)

/-- C10: validation is a falsiness check, so a null body and
empty-string identifiers get exactly the same 400 response as absent
fields, again with no store call. -/
theorem claim10_falsy_validation (w : World) (st0 : Store) (b : Body)
    (h : b.customerId = some "" ∨ b.environmentId = some "") :
    handler w st0 none = (resp400, ⟨1, 0, st0, []⟩) ∧
    handler w st0 (some b) = (resp400, ⟨1, 0, st0, []⟩) := by
  refine ⟨handler_no_body w st0, ?_⟩
  apply handler_invalid
  rcases h with h | h <;> simp [falsyOpt, h]

def bC10 : Body := ⟨some "", some "E1", none, none, none, none, none, none⟩

theorem claim10_witness :
    handler wZero emptyStore none = (resp400, ⟨1, 0, emptyStore, []⟩) ∧
    handler wZero emptyStore (some bC10) =
      (resp400, ⟨1, 0, emptyStore, []⟩) :=
  claim10_falsy_validation wZero emptyStore bC10 (Or.inl rfl)

/-- C8: every adapter operation wraps a store-level failure in an
Error whose message is exactly "<Kind> operation failed: <cause>" and
re-raises it; none returns normally on a store failure. -/
theorem claim8_error_wrapping (w : World) (rs : RS) (d : Obj) (err : JsError)
    (h : w.outcomes rs.call = some err) :
    createCustomer w rs d = .error
      (⟨"Error", "Customer operation failed: " ++ err.message⟩,
       ⟨rs.tick + 1, rs.call + 1, rs.store, rs.trace⟩) ∧
    createEnvironment w rs d = .error
      (⟨"Error", "Environment operation failed: " ++ err.message⟩,
       ⟨rs.tick + 1, rs.call + 1, rs.store, rs.trace⟩) ∧
    createDeploymentRecord w rs d = .error
      (⟨"Error", "Deployment operation failed: " ++ err.message⟩,
       ⟨rs.tick + 2, rs.call + 1, rs.store, rs.trace⟩) ∧
    createResourceRecord w rs d = .error
      (⟨"Error", "Resource operation failed: " ++ err.message⟩,
       ⟨rs.tick + 2, rs.call + 1, rs.store, rs.trace⟩) ∧
    createEndpoint w rs d = .error
      (⟨"Error", "Endpoint operation failed: " ++ err.message⟩,
       ⟨rs.tick + 2, rs.call + 1, rs.store, rs.trace⟩) :=
  ⟨createCustomer_fail w rs d err h,
   createEnvironment_fail w rs d err h,
   createDeploymentRecord_fail w rs d err h,
   createResourceRecord_fail w rs d err h,
   createEndpoint_fail w rs d err h⟩

def errC8 : JsError := ⟨"RestError", "boom"⟩

def wFail : World := ⟨zeroClock, fun _ => some errC8⟩

def dC8 : Obj := [("customerId", some "C1")]

theorem claim8_witness :
    createCustomer wFail rs0empty dC8 = .error
      (⟨"Error", "Customer operation failed: " ++ errC8.message⟩,
       ⟨rs0empty.tick + 1, rs0empty.call + 1, rs0empty.store, rs0empty.trace⟩) ∧
    createEnvironment wFail rs0empty dC8 = .error
      (⟨"Error", "Environment operation failed: " ++ errC8.message⟩,
       ⟨rs0empty.tick + 1, rs0empty.call + 1, rs0empty.store, rs0empty.trace⟩) ∧
    createDeploymentRecord wFail rs0empty dC8 = .error
      (⟨"Error", "Deployment operation failed: " ++ errC8.message⟩,
       ⟨rs0empty.tick + 2, rs0empty.call + 1, rs0empty.store, rs0empty.trace⟩) ∧
    createResourceRecord wFail rs0empty dC8 = .error
      (⟨"Error", "Resource operation failed: " ++ errC8.message⟩,
       ⟨rs0empty.tick + 2, rs0empty.call + 1, rs0empty.store, rs0empty.trace⟩) ∧
    createEndpoint wFail rs0empty dC8 = .error
      (⟨"Error", "Endpoint operation failed: " ++ errC8.message⟩,
       ⟨rs0empty.tick + 2, rs0empty.call + 1, rs0empty.store, rs0empty.trace⟩) :=
  claim8_error_wrapping wFail rs0empty dC8 errC8 rfl

/-- C9: the caller bag is spread after key derivation, so a bag field
named partitionKey, rowKey, timestamp or status overwrites the derived
value in every stored entity; in particular createDeploymentRecord
stores and returns the caller-supplied rowKey. -/
theorem claim9_reserved_override (iso : String) (nowMs : Nat) (w : World)
    (rs : RS) (d : Obj) (k : String)
    (_hres : k = "partitionKey" ∨ k = "rowKey" ∨ k = "timestamp" ∨ k = "status")
    (hkd : hasKey d k = true)
    (hrk : hasKey d "rowKey" = true)
    (hok : w.outcomes rs.call = none) :
    entityField k (customerEntity iso d) = Obj.idx d k ∧
    entityField k (environmentEntity iso d) = Obj.idx d k ∧
    entityField k (deploymentEntity nowMs iso d) = Obj.idx d k ∧
    entityField k (resourceEntity nowMs iso d) = Obj.idx d k ∧
    entityField k (endpointEntity nowMs iso d) = Obj.idx d k ∧
    okKeyOf (createDeploymentRecord w rs d) = some (Obj.idx d "rowKey") := by
  refine ⟨?_, ?_, ?_, ?_, ?_, ?_⟩
  · simp [entityField, customerEntity, idx_cons, hasKey_cons, hkd]
  · simp [entityField, environmentEntity, idx_cons, hasKey_cons, hkd]
  · simp [entityField, deploymentEntity, idx_cons, hasKey_cons, hkd]
  · simp [entityField, resourceEntity, idx_cons, hasKey_cons, hkd]
  · simp [entityField, endpointEntity, idx_cons, hasKey_cons, hkd]
  · rw [createDeploymentRecord_ok w rs d hok]
    simp [okKeyOf, deploymentEntity, idx_cons, hasKey_cons, hrk]

def dC9 : Obj := [("customerId", some "C1"), ("rowKey", some "customkey")]

theorem claim9_witness :
    entityField "rowKey" (customerEntity "iso:7" dC9) = Obj.idx dC9 "rowKey" ∧
    entityField "rowKey" (environmentEntity "iso:7" dC9) =
      Obj.idx dC9 "rowKey" ∧
    entityField "rowKey" (deploymentEntity 7 "iso:7" dC9) =
      Obj.idx dC9 "rowKey" ∧
    entityField "rowKey" (resourceEntity 7 "iso:7" dC9) =
      Obj.idx dC9 "rowKey" ∧
    entityField "rowKey" (endpointEntity 7 "iso:7" dC9) =
      Obj.idx dC9 "rowKey" ∧
    okKeyOf (createDeploymentRecord wZero rs0empty dC9) =
      some (Obj.idx dC9 "rowKey") :=
  claim9_reserved_override "iso:7" 7 wZero rs0empty dC9 "rowKey"
    (Or.inr (Or.inl rfl)) (by decide) (by decide) rfl

/-! C6 fixtures: retryOperation composed with the shared adapter's
Customer upsert, per src/unnamed/part_000. -/

def sockErr : JsError := ⟨"SocketException", "socket hang up"⟩

def permErr : JsError := ⟨"RestError", "auth failed"⟩

/-- Store outcome of the k-th attempt in the C6 scenario: a transient
network failure on the first attempt, success afterwards. -/
def c6storeSeq : Nat → Option JsError :=
  fun k => if k = 0 then some sockErr else none

/-- The operation part_000 wraps in retryOperation for the Customer
upsert: each invocation runs the shared adapter's createCustomer, whose
store call on attempt k has outcome `c6storeSeq k`; the adapter wraps
any store failure in an Error-named error before rethrowing. -/
def c6CustomerAttempt : Nat → Except JsError Bool := fun k =>
  match createCustomer ⟨zeroClock, fun _ => c6storeSeq k⟩ rs0empty
      [("customerId", some "C1")] with
  | .ok (_, okFlag) => .ok okFlag
  | .error (e, _) => .error e

/-- An operation whose own thrown error carries the transient name
(what retryOperation's classifier actually looks for). -/
def c6RawTransient : Nat → Except JsError Bool :=
  fun k => if k = 0 then .error sockErr else .ok true

/-- An operation that fails transiently on every attempt. -/
def c6AllTransient : Nat → Except JsError Bool := fun _ => .error sockErr

/-- An operation that fails with a non-transient error. -/
def c6NonTransient : Nat → Except JsError Bool := fun _ => .error permErr

/-- An operation that fails transiently on the first two attempts and
succeeds on the third. -/
def c6LateRecovery : Nat → Except JsError Bool :=
  fun k => if k < 2 then .error sockErr else .ok true

/-- C6: the generic retry mechanics behave as claimed (raw transient
errors are retried with backoff 1000, 2000 and recover before
exhaustion, persist to exhaustion after 3 attempts, and non-transient
errors propagate after 1 attempt with no sleep) — but the Customer
upsert scenario diverges: the adapter wraps the transient store
failure in an Error-named error, so retryOperation propagates it
immediately after a single attempt and the upsert does NOT succeed,
contrary to the claim. -/
theorem claim6_wrap_defeats_retry :
    (retryOperation c6CustomerAttempt 3 1000).result = .error
      ⟨"Error", "Customer operation failed: socket hang up"⟩ ∧
    (retryOperation c6CustomerAttempt 3 1000).attempts = 1 ∧
    (retryOperation c6CustomerAttempt 3 1000).sleeps = [] ∧
    (retryOperation c6RawTransient 3 1000).result = .ok (some true) ∧
    (retryOperation c6RawTransient 3 1000).attempts = 2 ∧
    (retryOperation c6RawTransient 3 1000).sleeps = [1000] ∧
    (retryOperation c6LateRecovery 3 1000).result = .ok (some true) ∧
    (retryOperation c6LateRecovery 3 1000).attempts = 3 ∧
    (retryOperation c6LateRecovery 3 1000).sleeps = [1000, 2000] ∧
    (retryOperation c6AllTransient 3 1000).result = .error sockErr ∧
    (retryOperation c6AllTransient 3 1000).attempts = 3 ∧
    (retryOperation c6AllTransient 3 1000).sleeps = [1000, 2000] ∧
    (retryOperation c6NonTransient 3 1000).result = .error permErr ∧
    (retryOperation c6NonTransient 3 1000).attempts = 1 ∧
    (retryOperation c6NonTransient 3 1000).sleeps = [] :=
  ⟨rfl, rfl, rfl, rfl, rfl, rfl, rfl, rfl, rfl, rfl, rfl, rfl, rfl, rfl, rfl⟩

theorem kindCount_take_le (tr : List Write) (n : Nat) (kk : WKind) :
    kindCount (tr.take n) kk ≤ kindCount tr kk := by
  rw [kindCount, kindCount, List.map_take]
  exact List.Sublist.count_le (List.take_sublist n _) kk

theorem fullWrites_length (clock : Nat → Nat) (b : Body) (t : Nat) :
    (fullWrites clock b t).length = plannedCalls b := by
  have h := congrArg List.length (fullWrites_kinds clock b t)
  simpa [plannedKinds_length] using h

/-- C2 (amended): every valid payload produces exactly one Deployment
write; its deploymentType is the payload's top-level deploymentType
when that is present and non-empty, "Initial" otherwise — provided
deploymentDetails does not itself carry a deploymentType field, which
the spread would let override the derived one; and a payload carrying
only the two identifiers produces no other write at all. -/
theorem claim2_one_deployment_defaulted (clock : Nat → Nat) (st0 : Store)
    (b : Body)
    (hv : (falsyOpt b.customerId || falsyOpt b.environmentId) = false)
    (hnd : hasKey (b.deploymentDetails.getD []) "deploymentType" = false) :
    kindCount (handler ⟨clock, noOutcome⟩ st0 (some b)).2.trace WKind.dep
      = 1 ∧
    depEntities (handler ⟨clock, noOutcome⟩ st0 (some b)).2.trace =
      [depEnt clock b 1] ∧
    (depEntities (handler ⟨clock, noOutcome⟩ st0 (some b)).2.trace).map
      (entityField "deploymentType") =
      [some (jsOr b.deploymentType "Initial")] ∧
    (minimalBody b = false ∨
      (handler ⟨clock, noOutcome⟩ st0 (some b)).2.trace =
        [Write.dep (depEnt clock b 1)]) ∧
    (handler ⟨clock, noOutcome⟩ st0 (some b)).1.status = 200 := by
  rw [handler_all_ok clock st0 b hv]
  dsimp only
  refine ⟨?_, depEntities_full clock b 1, ?_, ?_, rfl⟩
  · rw [kindCount_eq_count_planned, count_planned_dep]
  · rw [depEntities_full]
    simp [entityField, depEnt_deploymentType clock b 1 hnd]
  · by_cases hm : minimalBody b = true
    · right
      simp only [minimalBody, Bool.and_eq_true, Option.isNone_iff_eq_none]
        at hm
      obtain ⟨⟨⟨h1, h2⟩, h3⟩, h4⟩ := hm
      simp [fullWrites, custWrites, envWrites, resWrites, endpWrites,
        h1, h2, h3, h4]
    · left
      simpa using hm

def b2override : Body :=
  ⟨some "C1", some "E1", some "Y", some [("deploymentType", some "X")],
   none, none, none, none⟩

def b2empty : Body :=
  ⟨some "C1", some "E1", some "", none, none, none, none, none⟩

/-- C2 counterexample: with deploymentDetails `{deploymentType: "X"}`
and top-level deploymentType "Y", the stored record's deploymentType
is "X", not the payload's "Y"; and a present-but-empty deploymentType
yields "Initial", not the present value "". -/
theorem claim2_counterexample :
    (depEntities (handler wZero emptyStore (some b2override)).2.trace).map
      (entityField "deploymentType") = [some "X"] ∧
    b2override.deploymentType = some "Y" ∧
    (some "X" : Option String) ≠ some "Y" ∧
    (depEntities (handler wZero emptyStore (some b2empty)).2.trace).map
      (entityField "deploymentType") = [some "Initial"] ∧
    b2empty.deploymentType = some "" ∧
    (some "Initial" : Option String) ≠ some "" := by
  refine ⟨by rfl, rfl, by decide, by rfl, rfl, by decide⟩

def bMinimal : Body :=
  ⟨some "C1", some "E1", none, none, none, none, none, none⟩

theorem claim2_witness :
    kindCount (handler ⟨zeroClock, noOutcome⟩ emptyStore (some bMinimal)).2.trace
      WKind.dep = 1 ∧
    depEntities (handler ⟨zeroClock, noOutcome⟩ emptyStore (some bMinimal)).2.trace =
      [depEnt zeroClock bMinimal 1] ∧
    (depEntities (handler ⟨zeroClock, noOutcome⟩ emptyStore (some bMinimal)).2.trace).map
      (entityField "deploymentType") =
      [some (jsOr bMinimal.deploymentType "Initial")] ∧
    (minimalBody bMinimal = false ∨
      (handler ⟨zeroClock, noOutcome⟩ emptyStore (some bMinimal)).2.trace =
        [Write.dep (depEnt zeroClock bMinimal 1)]) ∧
    (handler ⟨zeroClock, noOutcome⟩ emptyStore (some bMinimal)).1.status = 200 :=
  claim2_one_deployment_defaulted zeroClock emptyStore bMinimal
    (by decide) (by decide)

/-- C4 (amended): from an N-element resources array, exactly N
Resource entities are written, the response lists the elements'
resourceType values in input order, and — provided an element does not
itself carry deploymentId or partitionKey fields, which the spread
would let override the tag — each Resource entity's partition key is
the row key the Deployment write returned. -/
theorem claim4_resources_tagged (clock : Nat → Nat) (st0 : Store) (b : Body)
    (items : List Obj)
    (hv : (falsyOpt b.customerId || falsyOpt b.environmentId) = false)
    (hres : b.resources = some items)
    (hover : ∀ r ∈ items, hasKey r "deploymentId" = false ∧
      hasKey r "partitionKey" = false) :
    (resEntities (handler ⟨clock, noOutcome⟩ st0 (some b)).2.trace).length =
      items.length ∧
    (resEntities (handler ⟨clock, noOutcome⟩ st0 (some b)).2.trace).map
      (entityField "partitionKey") =
      List.replicate items.length
        (respDepKey (handler ⟨clock, noOutcome⟩ st0 (some b)).1) ∧
    respResources (handler ⟨clock, noOutcome⟩ st0 (some b)).1 =
      items.map resourceTypeOf ∧
    (respResources (handler ⟨clock, noOutcome⟩ st0 (some b)).1).length =
      items.length ∧
    (handler ⟨clock, noOutcome⟩ st0 (some b)).1.status = 200 := by
  rw [handler_all_ok clock st0 b hv]
  dsimp only
  rw [resEntities_full]
  refine ⟨?_, ?_, ?_, ?_, rfl⟩
  · simp [hres, resEntsOf_length]
  · simp only [hres, Option.getD_some, respDepKey, resultsOf]
    exact resEntsOf_pk clock b.customerId _ _ items hover
  · simp [respResources, resultsOf, hres, resourceTypeOf]
  · simp [respResources, resultsOf, hres]

def b4evil : Body :=
  ⟨some "C1", some "E1", none, none, none, none,
   some [[("partitionKey", some "EVIL")]], none⟩

/-- C4 counterexample: a resource element that itself carries a
partitionKey field overrides the deployment tag — the stored Resource
row's partition key is the caller's "EVIL", not the Deployment row key
"0_E1" the write returned. -/
theorem claim4_counterexample :
    (resEntities (handler wZero emptyStore (some b4evil)).2.trace).map
      (entityField "partitionKey") = [some "EVIL"] ∧
    respDepKey (handler wZero emptyStore (some b4evil)).1 = some "0_E1" ∧
    (some "EVIL" : Option String) ≠ some "0_E1" := by
  refine ⟨by rfl, by rfl, by decide⟩

def items4 : List Obj :=
  [[("resourceType", some "vm")], [("resourceType", some "db")]]

def b4ok : Body :=
  ⟨some "C1", some "E1", none, none, none, none, some items4, none⟩

theorem claim4_witness :
    (resEntities (handler ⟨zeroClock, noOutcome⟩ emptyStore (some b4ok)).2.trace).length =
      items4.length ∧
    (resEntities (handler ⟨zeroClock, noOutcome⟩ emptyStore (some b4ok)).2.trace).map
      (entityField "partitionKey") =
      List.replicate items4.length
        (respDepKey (handler ⟨zeroClock, noOutcome⟩ emptyStore (some b4ok)).1) ∧
    respResources (handler ⟨zeroClock, noOutcome⟩ emptyStore (some b4ok)).1 =
      items4.map resourceTypeOf ∧
    (respResources (handler ⟨zeroClock, noOutcome⟩ emptyStore (some b4ok)).1).length =
      items4.length ∧
    (handler ⟨zeroClock, noOutcome⟩ emptyStore (some b4ok)).1.status = 200 :=
  claim4_resources_tagged zeroClock emptyStore b4ok items4
    (by decide) rfl (by decide)

/-- C5 (amended): Customer and Environment writes are idempotent
replace-style upserts — writing the same data twice succeeds both
times and leaves exactly one row holding the latest (second) entity —
provided the data does not itself carry partitionKey/rowKey fields,
which the spread would let override the derived key (customerId,
customerId) for Customers and (customerId, environmentId) for
Environments. -/
theorem claim5_upsert_idempotent (clock : Nat → Nat) (st0 : Store)
    (d dE : Obj)
    (hpk : hasKey d "partitionKey" = false)
    (hrk : hasKey d "rowKey" = false)
    (hpkE : hasKey dE "partitionKey" = false)
    (hrkE : hasKey dE "rowKey" = false)
    (hc : countKey st0.customers
      (Obj.idx d "customerId", Obj.idx d "customerId") ≤ 1)
    (he : countKey st0.environments
      (Obj.idx dE "customerId", Obj.idx dE "environmentId") ≤ 1) :
    twiceOut (runTwiceCustomer ⟨clock, noOutcome⟩ st0 d) = some (true, true) ∧
    countKey (twiceCustomers (runTwiceCustomer ⟨clock, noOutcome⟩ st0 d))
      (Obj.idx d "customerId", Obj.idx d "customerId") = 1 ∧
    lookupKey (twiceCustomers (runTwiceCustomer ⟨clock, noOutcome⟩ st0 d))
      (Obj.idx d "customerId", Obj.idx d "customerId") =
      some (customerEntity (isoStr (clock 1)) d) ∧
    twiceOut (runTwiceEnvironment ⟨clock, noOutcome⟩ st0 dE) =
      some (true, true) ∧
    countKey (twiceEnvironments (runTwiceEnvironment ⟨clock, noOutcome⟩ st0 dE))
      (Obj.idx dE "customerId", Obj.idx dE "environmentId") = 1 ∧
    lookupKey (twiceEnvironments (runTwiceEnvironment ⟨clock, noOutcome⟩ st0 dE))
      (Obj.idx dE "customerId", Obj.idx dE "environmentId") =
      some (environmentEntity (isoStr (clock 1)) dE) := by
  have hk0 : entityKey (customerEntity (isoStr (clock 0)) d) =
      (Obj.idx d "customerId", Obj.idx d "customerId") :=
    customerEntity_key _ d hpk hrk
  have hk1 : entityKey (customerEntity (isoStr (clock 1)) d) =
      (Obj.idx d "customerId", Obj.idx d "customerId") :=
    customerEntity_key _ d hpk hrk
  have hkE0 : entityKey (environmentEntity (isoStr (clock 0)) dE) =
      (Obj.idx dE "customerId", Obj.idx dE "environmentId") :=
    environmentEntity_key _ dE hpkE hrkE
  have hkE1 : entityKey (environmentEntity (isoStr (clock 1)) dE) =
      (Obj.idx dE "customerId", Obj.idx dE "environmentId") :=
    environmentEntity_key _ dE hpkE hrkE
  simp only [runTwiceCustomer, runTwiceEnvironment]
  rw [createCustomer_ok _ _ _ rfl]
  dsimp only
  rw [createCustomer_ok _ _ _ rfl]
  dsimp only
  rw [createEnvironment_ok _ _ _ rfl]
  dsimp only
  rw [createEnvironment_ok _ _ _ rfl]
  dsimp only
  simp only [twiceOut, twiceCustomers, twiceEnvironments]
  refine ⟨trivial, ?_, ?_, trivial, ?_, ?_⟩
  · rw [← hk1]
    apply countKey_upsert_self
    rw [hk1, ← hk0]
    rw [countKey_upsert_self st0.customers _ (by rw [hk0]; exact hc)]
  · rw [← hk1]
    exact lookupKey_upsert_self _ _
  · rw [← hkE1]
    apply countKey_upsert_self
    rw [hkE1, ← hkE0]
    rw [countKey_upsert_self st0.environments _ (by rw [hkE0]; exact he)]
  · rw [← hkE1]
    exact lookupKey_upsert_self _ _

def d5bad : Obj :=
  [("customerId", some "C1"), ("partitionKey", some "P"),
   ("rowKey", some "R")]

/-- C5 counterexample: customerData that itself carries
partitionKey/rowKey fields is filed under the caller's key, so the
claim's "exactly one row under key (customerId, customerId)" fails:
both upserts succeed, yet no row at all sits at ("C1", "C1") — the
single row sits at the overridden key ("P", "R"). -/
theorem claim5_counterexample :
    twiceOut (runTwiceCustomer wZero emptyStore d5bad) = some (true, true) ∧
    countKey (twiceCustomers (runTwiceCustomer wZero emptyStore d5bad))
      (some "C1", some "C1") = 0 ∧
    countKey (twiceCustomers (runTwiceCustomer wZero emptyStore d5bad))
      (some "P", some "R") = 1 := by
  refine ⟨by rfl, by rfl, by rfl⟩

def d5cust : Obj := [("customerId", some "C1"), ("name", some "Acme")]

def d5env : Obj := [("customerId", some "C1"), ("environmentId", some "E1")]

theorem claim5_witness :
    twiceOut (runTwiceCustomer ⟨zeroClock, noOutcome⟩ emptyStore d5cust) =
      some (true, true) ∧
    countKey
      (twiceCustomers (runTwiceCustomer ⟨zeroClock, noOutcome⟩ emptyStore d5cust))
      (Obj.idx d5cust "customerId", Obj.idx d5cust "customerId") = 1 ∧
    lookupKey
      (twiceCustomers (runTwiceCustomer ⟨zeroClock, noOutcome⟩ emptyStore d5cust))
      (Obj.idx d5cust "customerId", Obj.idx d5cust "customerId") =
      some (customerEntity (isoStr (zeroClock 1)) d5cust) ∧
    twiceOut (runTwiceEnvironment ⟨zeroClock, noOutcome⟩ emptyStore d5env) =
      some (true, true) ∧
    countKey
      (twiceEnvironments (runTwiceEnvironment ⟨zeroClock, noOutcome⟩ emptyStore d5env))
      (Obj.idx d5env "customerId", Obj.idx d5env "environmentId") = 1 ∧
    lookupKey
      (twiceEnvironments (runTwiceEnvironment ⟨zeroClock, noOutcome⟩ emptyStore d5env))
      (Obj.idx d5env "customerId", Obj.idx d5env "environmentId") =
      some (environmentEntity (isoStr (zeroClock 1)) d5env) :=
  claim5_upsert_idempotent zeroClock emptyStore d5cust d5env
    (by decide) (by decide) (by decide) (by decide) (by decide) (by decide)

/-- C7: within one request the writes are serialized in the fixed
order Deployment, Customer (if requested), Environment (if requested),
each resource in array order, each endpoint in array order; on a fully
successful run the trace is exactly the planned sequence, and when the
store call number `i` is the first to fail the handler performs
exactly the first `i` planned writes and no more, returns a 500
failure response, and every record written before the failure is still
present in the store (no delete, no rollback). -/
theorem claim7_serialized_order_abort (clock : Nat → Nat)
    (outcomes : Nat → Option JsError) (st0 : Store) (b : Body)
    (i : Nat) (err : JsError)
    (hv : (falsyOpt b.customerId || falsyOpt b.environmentId) = false)
    (hok : ∀ j, j < i → outcomes j = none)
    (hfail : outcomes i = some err)
    (hlen : i < (plannedKinds b).length) :
    (handler ⟨clock, noOutcome⟩ st0 (some b)).2.trace.map writeKind =
      plannedKinds b ∧
    (handler ⟨clock, noOutcome⟩ st0 (some b)).1.status = 200 ∧
    (resEntities (handler ⟨clock, noOutcome⟩ st0 (some b)).2.trace).map
      (entityField "resourceType") =
      (b.resources.getD []).map resourceTypeOf ∧
    (endpEntities (handler ⟨clock, noOutcome⟩ st0 (some b)).2.trace).map
      (entityField "serviceType") =
      (b.endpoints.getD []).map serviceTypeOf ∧
    (handler ⟨clock, outcomes⟩ st0 (some b)).1.status = 500 ∧
    (handler ⟨clock, outcomes⟩ st0 (some b)).2.trace.map writeKind =
      (plannedKinds b).take i ∧
    (handler ⟨clock, outcomes⟩ st0 (some b)).2.trace.length = i ∧
    (handler ⟨clock, outcomes⟩ st0 (some b)).2.trace.all
      (persistedB (handler ⟨clock, outcomes⟩ st0 (some b)).2.store) =
      true := by
  have hlen' : i < plannedCalls b := by rwa [plannedKinds_length] at hlen
  obtain ⟨msg, tF, e⟩ :=
    handler_first_fail clock outcomes st0 b i err hv hlen' hok hfail
  rw [handler_all_ok clock st0 b hv, e]
  dsimp only
  have hfl : (fullWrites clock b 1).length = plannedCalls b :=
    fullWrites_length clock b 1
  refine ⟨fullWrites_kinds clock b 1, rfl, ?_, ?_, rfl, ?_, ?_, ?_⟩
  · rw [resEntities_full]
    exact resEntsOf_types clock b.customerId _ _ _
  · rw [endpEntities_full]
    exact endpEntsOf_types clock b.customerId _ _
  · rw [List.map_take, fullWrites_kinds]
  · rw [List.length_take, hfl]
    exact Nat.min_eq_left (Nat.le_of_lt hlen')
  · rw [List.all_eq_true]
    intro x hx
    apply persist_all
    · calc kindCount ((fullWrites clock b 1).take i) WKind.cust
          ≤ kindCount (fullWrites clock b 1) WKind.cust :=
            kindCount_take_le _ i _
        _ = custTicks b := by
            rw [kindCount_eq_count_planned, count_planned_cust]
        _ ≤ 1 := by cases hcb : b.customerDetails <;> simp [custTicks, hcb]
    · calc kindCount ((fullWrites clock b 1).take i) WKind.env
          ≤ kindCount (fullWrites clock b 1) WKind.env :=
            kindCount_take_le _ i _
        _ = envTicks b := by
            rw [kindCount_eq_count_planned, count_planned_env]
        _ ≤ 1 := by cases heb : b.environmentDetails <;> simp [envTicks, heb]
    · exact hx

def errC7 : JsError := ⟨"RestError", "write refused"⟩

def out7 : Nat → Option JsError :=
  fun j => if j = 2 then some errC7 else none

def b7 : Body :=
  ⟨some "C1", some "E1", none, none, some [("name", some "Acme")],
   some [("region", some "eu")], some [[("resourceType", some "vm")]],
   some [[("serviceType", some "api")]]⟩

theorem claim7_witness :
    (handler ⟨zeroClock, noOutcome⟩ emptyStore (some b7)).2.trace.map writeKind =
      plannedKinds b7 ∧
    (handler ⟨zeroClock, noOutcome⟩ emptyStore (some b7)).1.status = 200 ∧
    (resEntities (handler ⟨zeroClock, noOutcome⟩ emptyStore (some b7)).2.trace).map
      (entityField "resourceType") =
      (b7.resources.getD []).map resourceTypeOf ∧
    (endpEntities (handler ⟨zeroClock, noOutcome⟩ emptyStore (some b7)).2.trace).map
      (entityField "serviceType") =
      (b7.endpoints.getD []).map serviceTypeOf ∧
    (handler ⟨zeroClock, out7⟩ emptyStore (some b7)).1.status = 500 ∧
    (handler ⟨zeroClock, out7⟩ emptyStore (some b7)).2.trace.map writeKind =
      (plannedKinds b7).take 2 ∧
    (handler ⟨zeroClock, out7⟩ emptyStore (some b7)).2.trace.length = 2 ∧
    (handler ⟨zeroClock, out7⟩ emptyStore (some b7)).2.trace.all
      (persistedB (handler ⟨zeroClock, out7⟩ emptyStore (some b7)).2.store) =
      true :=
  claim7_serialized_order_abort zeroClock out7 emptyStore b7 2 errC7
    (by decide) (by decide) rfl (by decide)

end DeployFn
